import Mathlib

/-!
# Task-Manager-Frontend: session and request layer

A shallow embedding of `src/services/api.js` (the `ApiService` class), of
`src/contexts/AuthContext.js` (the `authReducer` and the operations of
`AuthProvider`), of the submit handler of `src/components/AuthForm.jsx` and of
the task handlers and the filter of `src/components/tasktracker.jsx`, followed
by theorems about them.

Conventions of the embedding.

* JavaScript values are `JsVal`: the JSON values plus `undefined`.  A number is
  held as the text that `String(n)` gives for it (`42`, `1.5`, `1e+21`, `NaN`),
  which is all the program reads of a number.  An object is the list of its
  properties in insertion order; when a key is bound twice the later binding is
  the value (as for an object literal and for `JSON.parse`).
* A thrown `Error` is represented by its `message`, so an `async` function that
  may reject returns `Except String α`.  The string conversion `String(v)` throws
  for an object that has a property `toString`; `toStr` is its text where it
  returns and `convertible` says where it does.  `localStorage` is taken to accept
  what is stored in it.
* The browser and the network are explicit: `World` holds `localStorage`,
  whether `window` is defined, and the log of the requests handed to `fetch`;
  a `Backend` says how `fetch` settles for a request.
* `dispatch` applies `authReducer` to the current Session, in program order.
* An operation of the provider is modelled twice: run to completion (`AuthProvider`), and
  split at its `await` into a call and a resumption (`Machine`), so that states in which
  operations are in flight can be spoken of; the two agree.
* A handler of the dashboard is run up to and including its call of `loadTasks()`, whose
  request is then in flight; `loadTasksResume` is the completion of that re-fetch.
-/

namespace TaskFlow

/-! ## JavaScript values -/

/-- JavaScript values that occur in the program: JSON values and `undefined`.  The number `n`
is `num t` for the text `t` of `String(n)`, its shortest decimal form that reads back as `n`:
`42`, `-7`, `1.5`, `1e+21`, `NaN`, `Infinity`; both zeros have the text `0`.  Two numbers other
than the zeros have the same text only if they are the same number. -/
inductive JsVal where
  | undefined
  | null
  | bool (b : Bool)
  | num (text : String)
  | str (s : String)
  | arr (items : List JsVal)
  | obj (fields : List (String × JsVal))
  deriving Repr, Inhabited

/-- Properties of an object (or entries of `localStorage`, or headers), in insertion order. -/
abbrev Props (α : Type) := List (String × α)

namespace Props

/-- Value bound to `k`; the last binding of a key is the one that counts. -/
def get {α : Type} : Props α → String → Option α
  | [], _ => none
  | (k', v) :: rest, k =>
    match get rest k with
    | some w => some w
    | none => if k' = k then some v else none

/-- Whether `k` is bound. -/
def has {α : Type} (o : Props α) (k : String) : Bool :=
  o.any (fun kv => decide (kv.1 = k))

/-- Assignment `o[k] = v`: an existing key keeps its place, a new key goes last. -/
def set {α : Type} (o : Props α) (k : String) (v : α) : Props α :=
  if o.has k then o.map (fun kv => if kv.1 = k then (k, v) else kv) else o ++ [(k, v)]

/-- Removal `delete o[k]`. -/
def remove {α : Type} (o : Props α) (k : String) : Props α :=
  o.filter (fun kv => !decide (kv.1 = k))

/-- Copies the properties of `src` onto `target` in order, as `Object.assign` and spread do. -/
def assign {α : Type} (target src : Props α) : Props α :=
  src.foldl (fun acc kv => acc.set kv.1 kv.2) target

/-- Numeric value of a string of decimal digits. -/
def digitsValue (cs : List Char) : Nat :=
  cs.foldl (fun n c => 10 * n + (c.toNat - 48)) 0

/-- Whether the key `k` is an array index: the canonical decimal text (no leading zero) of a
number below `2^32 - 1`. -/
def isArrayIndex (k : String) : Bool :=
  !k.data.isEmpty && k.data.all Char.isDigit
    && (decide (k.data = ['0']) || decide (k.data.head? ≠ some '0'))
    && decide (digitsValue k.data < 4294967295)

/-- Insertion of an entry whose key is an array index into a list sorted by index. -/
def insertIndexed {α : Type} (kv : String × α) : Props α → Props α
  | [] => [kv]
  | x :: rest =>
    if digitsValue kv.1.data ≤ digitsValue x.1.data then kv :: x :: rest
    else x :: insertIndexed kv rest

/-- Entries with array-index keys, in ascending numeric order. -/
def sortIndexed {α : Type} (o : Props α) : Props α :=
  o.foldr insertIndexed []

/-- Own properties in the order in which the keys of an object are enumerated
(`[[OwnPropertyKeys]]`): one entry per key; the array-index keys first, ascending; then the
other keys in insertion order. -/
def entries {α : Type} (o : Props α) : Props α :=
  let n := assign [] o
  sortIndexed (n.filter (fun kv => isArrayIndex kv.1))
    ++ n.filter (fun kv => !isArrayIndex kv.1)

end Props

namespace JsVal

/-- JavaScript truthiness (`if (v)`, `v || w`, `!v`). -/
def truthy : JsVal → Bool
  | undefined => false
  | null => false
  | bool b => b
  | num t => decide (t ≠ "0") && decide (t ≠ "NaN")
  | str s => decide (s ≠ "")
  | arr _ => true
  | obj _ => true

/-- Whether a value is present: neither `null` nor `undefined`. -/
def isPresent : JsVal → Bool
  | undefined => false
  | null => false
  | _ => true

mutual
/-- String conversion `String(v)`, as applied by `new Error(v)`, by template strings, by
`URLSearchParams` and by `localStorage.setItem`: the text it returns.  Where the conversion
throws (`convertible` below) the text is not used. -/
def toStr : JsVal → String
  | undefined => "undefined"
  | null => "null"
  | bool b => if b then "true" else "false"
  | num t => t
  | str s => s
  | arr items => joinItems items
  | obj _ => "[object Object]"
termination_by structural v => v
/-- The text of `Array.prototype.join(",")`: `null` and `undefined` elements print as empty. -/
def joinItems : List JsVal → String
  | [] => ""
  | v :: rest =>
    (match v with
      | undefined => ""
      | null => ""
      | w => toStr w) ++ (if rest.isEmpty then "" else "," ++ joinItems rest)
termination_by structural l => l
end

mutual
/-- Whether the string conversion `String(v)` returns.  It throws a `TypeError` for an object
that has an own property `toString` (the property hides `Object.prototype.toString`, and no
value of `JsVal` is callable), and for an array with such an element, at any depth; `null` and
`undefined` elements of an array are not converted. -/
def convertible : JsVal → Bool
  | arr items => convertibleItems items
  | obj fields => !(fields.any (fun kv => decide (kv.1 = "toString")))
  | _ => true
termination_by structural v => v
/-- Whether every element of an array can be converted. -/
def convertibleItems : List JsVal → Bool
  | [] => true
  | v :: rest => convertible v && convertibleItems rest
termination_by structural l => l
end

/-- The message of the `TypeError` thrown by a string conversion that fails. -/
def conversionError : String :=
  "Cannot convert object to primitive value"

/-- The message of the error that `throw new Error(v)` throws: the string form of `v`, and the
message of the `TypeError` when the conversion of `v` throws. -/
def errorMessage (v : JsVal) : String :=
  if v.convertible then v.toStr else conversionError

/-- The message of the `TypeError` raised when property `k` is read from `null` or `undefined`. -/
def typeErrorMessage (v : JsVal) (k : String) : String :=
  "Cannot read properties of " ++ toStr v ++ " (reading '" ++ k ++ "')"

/-- Property read `v.k` for a named (non-index, non-builtin) property `k`: throws a `TypeError`
on `null` and `undefined`, gives `undefined` when the property is missing. -/
def readProp (v : JsVal) (k : String) : Except String JsVal :=
  match v with
  | undefined => .error (typeErrorMessage v k)
  | null => .error (typeErrorMessage v k)
  | obj fields => .ok ((Props.get fields k).getD undefined)
  | _ => .ok undefined

/-- The value of `v.k` where the read does not throw (`undefined` stands in where it throws). -/
def field (v : JsVal) (k : String) : JsVal :=
  match readProp v k with
  | .ok x => x
  | .error _ => undefined

/-- Own enumerable properties copied by object spread `{...v}`: none for `null`, `undefined`,
booleans and numbers; the indexed elements of an array; the indexed characters of a string. -/
def ownProps : JsVal → Props JsVal
  | obj fields => fields
  | arr items => items.enum.map (fun iv => (toString iv.1, iv.2))
  | str s => s.data.enum.map (fun ic => (toString ic.1, str (String.singleton ic.2)))
  | _ => []

/-- The object literal `{ ...a, ...b }`. -/
def spread2 (a b : JsVal) : JsVal :=
  obj ((Props.assign [] (ownProps a)).assign (ownProps b))

/-- A parameter with a default value, `v = d` in a parameter list: the default stands in for
an argument that is `undefined`, and only for that. -/
def withDefault (v d : JsVal) : JsVal :=
  match v with
  | undefined => d
  | w => w

end JsVal

/-! ## Browser, network and the Credential Store (`api.js`) -/

/-- Argument of `fetch(url, config)`.  `body` records the value `data` whose
`JSON.stringify(data)` text is the request body. -/
structure Request where
  url : String
  method : Option String
  headers : Props String
  body : Option JsVal

/-- A `Response`: its status code and what `response.json()` settles to (the parsed body, or
the message of the error it rejects with). -/
structure Response where
  status : Nat
  body : Except String JsVal

/-- Property `response.ok`: the status is in the range 200-299. -/
def Response.ok (r : Response) : Bool :=
  decide (200 ≤ r.status) && decide (r.status ≤ 299)

/-- How `fetch` settles: it rejects (network failure) or it resolves with a response. -/
inductive FetchOutcome where
  | rejected (message : String)
  | resolved (response : Response)

/-- The external backend together with the transport: what `fetch` gives for a request. -/
abbrev Backend := Request → FetchOutcome

/-- The environment the client runs in. -/
structure World where
  /-- Flag `typeof window !== 'undefined'` -/
  hasWindow : Bool
  /-- content of `localStorage` -/
  localStorage : Props String
  /-- requests handed to `fetch` so far, oldest first -/
  sent : List Request

/-- The `options` argument of `request`. -/
structure Options where
  method : Option String := none
  body : Option JsVal := none
  headers : Option (Props String) := none

/-- The singleton `apiService = new ApiService()`; `baseURL` is `API_BASE_URL`. -/
structure ApiService where
  baseURL : String

/-- Constant `process.env.NEXT_PUBLIC_API_URL || 'http://localhost:5000/api'` -/
def API_BASE_URL (env : Option String) : String :=
  match env with
  | some u => if u = "" then "http://localhost:5000/api" else u
  | none => "http://localhost:5000/api"

/-! ### `URLSearchParams` -/

namespace URLSearchParams

/-- Upper-case hexadecimal digit. -/
def hexDigit (n : Nat) : Char :=
  if n < 10 then Char.ofNat (48 + n) else Char.ofNat (55 + n)

/-- The escape `%XX` of one byte. -/
def percentByte (b : Nat) : String :=
  String.mk [(37 : Nat) |> Char.ofNat, hexDigit (b / 16), hexDigit (b % 16)]

/-- UTF-8 bytes of a character. -/
def utf8Bytes (c : Char) : List Nat :=
  let n := c.toNat
  if n < 128 then [n]
  else if n < 2048 then [192 + n / 64, 128 + n % 64]
  else if n < 65536 then [224 + n / 4096, 128 + (n / 64) % 64, 128 + n % 64]
  else [240 + n / 262144, 128 + (n / 4096) % 64, 128 + (n / 64) % 64, 128 + n % 64]

/-- The `application/x-www-form-urlencoded` serialisation of one character: ASCII letters and
digits and the characters `*-._` stay, a space becomes `+`, every other byte is escaped. -/
def encodeChar (c : Char) : String :=
  if c = ' ' then "+"
  else if c.isAlphanum || c = '*' || c = '-' || c = '.' || c = '_' then String.singleton c
  else String.join ((utf8Bytes c).map percentByte)

/-- Serialisation of a name or of a value. -/
def encode (s : String) : String :=
  String.join (s.data.map encodeChar)

/-- The text of `new URLSearchParams(params).toString()` for the enumerated entries `params`:
every entry as `name=value`, values converted to strings, joined by `&`. -/
def toString (params : Props JsVal) : String :=
  String.intercalate "&" (params.map (fun kv => encode kv.1 ++ "=" ++ encode kv.2.toStr))

/-- Whether `new URLSearchParams(params)` returns for the object `params`: each value of the
object is converted to a string, and a conversion that throws ends the constructor. -/
def accepts (params : Props JsVal) : Bool :=
  (Props.entries params).all (fun kv => kv.2.convertible)

end URLSearchParams

namespace ApiService

/-- Method `getAuthToken()`: `none` is `null`. -/
def getAuthToken (w : World) : Option String :=
  if w.hasWindow then w.localStorage.get "taskflow_token" else none

/-- Method `setAuthToken(token)`, where it returns: `localStorage.setItem` stores the string
conversion of its argument. -/
def setAuthToken (w : World) (token : JsVal) : World :=
  if w.hasWindow then { w with localStorage := w.localStorage.set "taskflow_token" token.toStr }
  else w

/-- Whether `setAuthToken(token)` throws: where `window` is defined, `localStorage.setItem`
converts the token to a string, and the `TypeError` of a conversion that fails leaves the
method before anything is stored. -/
def setAuthTokenThrows (w : World) (token : JsVal) : Bool :=
  w.hasWindow && !token.convertible

/-- Method `removeAuthToken()` -/
def removeAuthToken (w : World) : World :=
  if w.hasWindow then { w with localStorage := w.localStorage.remove "taskflow_token" } else w

/-- The `config` object built by `request`: `{ headers: { 'Content-Type': ..., ...options.headers },
...options }`, then `config.headers.Authorization` when the token is truthy. -/
def requestConfig (api : ApiService) (w : World) (endpoint : String) (options : Options) :
    Request :=
  let url := api.baseURL ++ endpoint
  let token := getAuthToken w
  let merged : Props String :=
    Props.assign [("Content-Type", "application/json")] (options.headers.getD [])
  -- the spread of options comes last, so its own headers key replaces the merged one
  let headers := match options.headers with
    | some h => h
    | none => merged
  let headers := match token with
    | some t => if t ≠ "" then headers.set "Authorization" ("Bearer " ++ t) else headers
    | none => headers
  { url := url, method := options.method, headers := headers, body := options.body }

/-- Generic request method `request(endpoint, options)`. -/
def request (api : ApiService) (net : Backend) (w : World) (endpoint : String)
    (options : Options) : Except String JsVal × World :=
  let config := requestConfig api w endpoint options
  let w1 := { w with sent := w.sent ++ [config] }
  match net config with
  | .rejected m => (.error m, w1)
  | .resolved response =>
    match response.body with
    | .error m => (.error m, w1)
    | .ok data =>
      if !response.ok then
        match data.readProp "message" with
        | .error m => (.error m, w1)
        | .ok msg =>
          if msg.truthy then (.error msg.errorMessage, w1)
          else (.error ("HTTP error! status: " ++ toString response.status), w1)
      else (.ok data, w1)

/-- Method `get(endpoint, params)`; `new URLSearchParams(params)` takes the entries of the
object `params` in the order its keys are enumerated and converts every value to a string; a
conversion that throws leaves the method before `request` is called. -/
def get (api : ApiService) (net : Backend) (w : World) (endpoint : String)
    (params : Props JsVal := []) : Except String JsVal × World :=
  if URLSearchParams.accepts params then
    let queryString := URLSearchParams.toString (Props.entries params)
    let url := if queryString ≠ "" then endpoint ++ "?" ++ queryString else endpoint
    api.request net w url { method := some "GET" }
  else (.error JsVal.conversionError, w)

/-- Method `post(endpoint, data = {})` -/
def post (api : ApiService) (net : Backend) (w : World) (endpoint : String) (data : JsVal) :
    Except String JsVal × World :=
  api.request net w endpoint { method := some "POST", body := some (data.withDefault (.obj [])) }

/-- Method `put(endpoint, data = {})` -/
def put (api : ApiService) (net : Backend) (w : World) (endpoint : String) (data : JsVal) :
    Except String JsVal × World :=
  api.request net w endpoint { method := some "PUT", body := some (data.withDefault (.obj [])) }

/-- Method `patch(endpoint, data = {})` -/
def patch (api : ApiService) (net : Backend) (w : World) (endpoint : String) (data : JsVal) :
    Except String JsVal × World :=
  api.request net w endpoint { method := some "PATCH", body := some (data.withDefault (.obj [])) }

/-- Method `delete(endpoint)` -/
def delete (api : ApiService) (net : Backend) (w : World) (endpoint : String) :
    Except String JsVal × World :=
  api.request net w endpoint { method := some "DELETE" }

/-- Method `register(userData)` -/
def register (api : ApiService) (net : Backend) (w : World) (userData : JsVal) :
    Except String JsVal × World :=
  match api.post net w "/auth/register" userData with
  | (.error m, w1) => (.error m, w1)
  | (.ok response, w1) =>
    match response.readProp "token" with
    | .error m => (.error m, w1)
    | .ok token =>
      if token.truthy then
        if setAuthTokenThrows w1 token then (.error JsVal.conversionError, w1)
        else (.ok response, setAuthToken w1 token)
      else (.ok response, w1)

/-- Method `login(credentials)` -/
def login (api : ApiService) (net : Backend) (w : World) (credentials : JsVal) :
    Except String JsVal × World :=
  match api.post net w "/auth/login" credentials with
  | (.error m, w1) => (.error m, w1)
  | (.ok response, w1) =>
    match response.readProp "token" with
    | .error m => (.error m, w1)
    | .ok token =>
      if token.truthy then
        if setAuthTokenThrows w1 token then (.error JsVal.conversionError, w1)
        else (.ok response, setAuthToken w1 token)
      else (.ok response, w1)

/-- Method `logout()`: local only. -/
def logout (_api : ApiService) (w : World) : Except String JsVal × World :=
  (.ok (.obj [("message", .str "Logged out successfully")]), removeAuthToken w)

/-- Method `getCurrentUser()` -/
def getCurrentUser (api : ApiService) (net : Backend) (w : World) : Except String JsVal × World :=
  api.get net w "/auth/me"

/-- Method `updateProfile(userData)` -/
def updateProfile (api : ApiService) (net : Backend) (w : World) (userData : JsVal) :
    Except String JsVal × World :=
  api.put net w "/auth/profile" userData

/-- Method `changePassword(passwordData)` -/
def changePassword (api : ApiService) (net : Backend) (w : World) (passwordData : JsVal) :
    Except String JsVal × World :=
  api.post net w "/auth/change-password" passwordData

/-- Method `getTasks(filters)` -/
def getTasks (api : ApiService) (net : Backend) (w : World) (filters : Props JsVal := []) :
    Except String JsVal × World :=
  api.get net w "/tasks" filters

/-- Method `getTask(taskId)`; the template string converts `taskId` to a string, and a
conversion that throws leaves the method before `get` is called. -/
def getTask (api : ApiService) (net : Backend) (w : World) (taskId : JsVal) :
    Except String JsVal × World :=
  if taskId.convertible then api.get net w ("/tasks/" ++ taskId.toStr)
  else (.error JsVal.conversionError, w)

/-- Method `createTask(taskData)` -/
def createTask (api : ApiService) (net : Backend) (w : World) (taskData : JsVal) :
    Except String JsVal × World :=
  api.post net w "/tasks" taskData

/-- Method `updateTask(taskId, taskData)` -/
def updateTask (api : ApiService) (net : Backend) (w : World) (taskId taskData : JsVal) :
    Except String JsVal × World :=
  if taskId.convertible then api.put net w ("/tasks/" ++ taskId.toStr) taskData
  else (.error JsVal.conversionError, w)

/-- Method `deleteTask(taskId)` -/
def deleteTask (api : ApiService) (net : Backend) (w : World) (taskId : JsVal) :
    Except String JsVal × World :=
  if taskId.convertible then api.delete net w ("/tasks/" ++ taskId.toStr)
  else (.error JsVal.conversionError, w)

/-- Method `updateTaskStatus(taskId, status)` -/
def updateTaskStatus (api : ApiService) (net : Backend) (w : World) (taskId status : JsVal) :
    Except String JsVal × World :=
  if taskId.convertible then
    api.patch net w ("/tasks/" ++ taskId.toStr ++ "/status") (.obj [("status", status)])
  else (.error JsVal.conversionError, w)

/-- Method `getTaskStats()` -/
def getTaskStats (api : ApiService) (net : Backend) (w : World) : Except String JsVal × World :=
  api.get net w "/tasks/stats/overview"

/-- Method `healthCheck()` -/
def healthCheck (api : ApiService) (net : Backend) (w : World) : Except String JsVal × World :=
  api.get net w "/health"

end ApiService

/-! ## Session state machine (`AuthContext.js`) -/

/-- The Session held by `useReducer`. -/
structure AuthState where
  user : JsVal
  isAuthenticated : Bool
  isLoading : Bool
  /-- Field value: `none` is `null` -/
  error : Option String

/-- Initial state. -/
def initialState : AuthState :=
  { user := .null, isAuthenticated := false, isLoading := true, error := none }

/-- Actions, each with the fields of its payload that the reducer reads; `OTHER` is an action
whose type is none of `AUTH_ACTIONS`. -/
inductive AuthAction where
  | LOGIN_START
  | LOGIN_SUCCESS (user : JsVal)
  | LOGIN_FAILURE (error : String)
  | LOGOUT
  | LOAD_USER_START
  | LOAD_USER_SUCCESS (user : JsVal)
  | LOAD_USER_FAILURE (error : String)
  | CLEAR_ERROR
  | UPDATE_USER (user : JsVal)
  | OTHER (type : String)

/-- Reducer. -/
def authReducer (state : AuthState) (action : AuthAction) : AuthState :=
  match action with
  | .LOGIN_START => { state with isLoading := true, error := none }
  | .LOAD_USER_START => { state with isLoading := true, error := none }
  | .LOGIN_SUCCESS user =>
    { state with user := user, isAuthenticated := true, isLoading := false, error := none }
  | .LOAD_USER_SUCCESS user =>
    { state with user := user, isAuthenticated := true, isLoading := false, error := none }
  | .LOGIN_FAILURE error =>
    { state with user := .null, isAuthenticated := false, isLoading := false, error := some error }
  | .LOAD_USER_FAILURE error =>
    { state with user := .null, isAuthenticated := false, isLoading := false, error := some error }
  | .LOGOUT =>
    { state with user := .null, isAuthenticated := false, isLoading := false, error := none }
  | .CLEAR_ERROR => { state with error := none }
  | .UPDATE_USER user => { state with user := JsVal.spread2 state.user user }
  | .OTHER _ => state

/-- The object an operation of the provider resolves to: `{ success, message }` or
`{ success, error }`; `none` is a key the object does not have. -/
structure OpResult where
  success : Bool
  message : Option JsVal := none
  error : Option String := none

namespace AuthProvider

/-- Load current user: `loadUser()`. -/
def loadUser (api : ApiService) (net : Backend) (state : AuthState) (w : World) :
    AuthState × World :=
  let token := ApiService.getAuthToken w
  if token = none ∨ token = some "" then
    (authReducer state (.LOAD_USER_FAILURE "No token found"), w)
  else
    let s1 := authReducer state .LOAD_USER_START
    match api.getCurrentUser net w with
    | (.ok response, w1) =>
      match response.readProp "user" with
      | .ok user => (authReducer s1 (.LOAD_USER_SUCCESS user), w1)
      | .error m => (authReducer s1 (.LOAD_USER_FAILURE m), ApiService.removeAuthToken w1)
    | (.error m, w1) => (authReducer s1 (.LOAD_USER_FAILURE m), ApiService.removeAuthToken w1)

/-- Login: `login(credentials)`. -/
def login (api : ApiService) (net : Backend) (state : AuthState) (w : World)
    (credentials : JsVal) : AuthState × World × OpResult :=
  let s1 := authReducer state .LOGIN_START
  match api.login net w credentials with
  | (.ok response, w1) =>
    match response.readProp "user" with
    | .ok user =>
      let s2 := authReducer s1 (.LOGIN_SUCCESS user)
      match response.readProp "message" with
      | .ok message => (s2, w1, { success := true, message := some message })
      | .error m => (authReducer s2 (.LOGIN_FAILURE m), w1, { success := false, error := some m })
    | .error m => (authReducer s1 (.LOGIN_FAILURE m), w1, { success := false, error := some m })
  | (.error m, w1) => (authReducer s1 (.LOGIN_FAILURE m), w1, { success := false, error := some m })

/-- Register: `register(userData)`. -/
def register (api : ApiService) (net : Backend) (state : AuthState) (w : World)
    (userData : JsVal) : AuthState × World × OpResult :=
  let s1 := authReducer state .LOGIN_START
  match api.register net w userData with
  | (.ok response, w1) =>
    match response.readProp "user" with
    | .ok user =>
      let s2 := authReducer s1 (.LOGIN_SUCCESS user)
      match response.readProp "message" with
      | .ok message => (s2, w1, { success := true, message := some message })
      | .error m => (authReducer s2 (.LOGIN_FAILURE m), w1, { success := false, error := some m })
    | .error m => (authReducer s1 (.LOGIN_FAILURE m), w1, { success := false, error := some m })
  | (.error m, w1) => (authReducer s1 (.LOGIN_FAILURE m), w1, { success := false, error := some m })

/-- Logout: `logout()`; the catch branch dispatches the same action and returns the same. -/
def logout (api : ApiService) (state : AuthState) (w : World) : AuthState × World × OpResult :=
  match api.logout w with
  | (.ok _, w1) => (authReducer state .LOGOUT, w1, { success := true })
  | (.error _, w1) => (authReducer state .LOGOUT, w1, { success := true })

/-- Update profile: `updateProfile(userData)`. -/
def updateProfile (api : ApiService) (net : Backend) (state : AuthState) (w : World)
    (userData : JsVal) : AuthState × World × OpResult :=
  match api.updateProfile net w userData with
  | (.ok response, w1) =>
    match response.readProp "user" with
    | .ok user =>
      let s1 := authReducer state (.UPDATE_USER user)
      match response.readProp "message" with
      | .ok message => (s1, w1, { success := true, message := some message })
      | .error m => (s1, w1, { success := false, error := some m })
    | .error m => (state, w1, { success := false, error := some m })
  | (.error m, w1) => (state, w1, { success := false, error := some m })

/-- Change password: `changePassword(passwordData)`. -/
def changePassword (api : ApiService) (net : Backend) (state : AuthState) (w : World)
    (passwordData : JsVal) : AuthState × World × OpResult :=
  match api.changePassword net w passwordData with
  | (.ok response, w1) =>
    match response.readProp "message" with
    | .ok message => (state, w1, { success := true, message := some message })
    | .error m => (state, w1, { success := false, error := some m })
  | (.error m, w1) => (state, w1, { success := false, error := some m })

/-- Clear error: `clearError()`. -/
def clearError (state : AuthState) : AuthState :=
  authReducer state .CLEAR_ERROR

end AuthProvider

/-! ## Runs of the Session state machine -/

/-- The operations of the provider that dispatch to the reducer. -/
inductive Op where
  | loadUser
  | login (credentials : JsVal)
  | register (userData : JsVal)
  | logout
  | updateProfile (userData : JsVal)
  | clearError

/-- One operation run to completion against the backend `net`. -/
def runOp (api : ApiService) (net : Backend) (op : Op) (sw : AuthState × World) :
    AuthState × World :=
  match op with
  | .loadUser => AuthProvider.loadUser api net sw.1 sw.2
  | .login credentials =>
    let r := AuthProvider.login api net sw.1 sw.2 credentials
    (r.1, r.2.1)
  | .register userData =>
    let r := AuthProvider.register api net sw.1 sw.2 userData
    (r.1, r.2.1)
  | .logout =>
    let r := AuthProvider.logout api sw.1 sw.2
    (r.1, r.2.1)
  | .updateProfile userData =>
    let r := AuthProvider.updateProfile api net sw.1 sw.2 userData
    (r.1, r.2.1)
  | .clearError => (AuthProvider.clearError sw.1, sw.2)

/-- A finite sequence of operations, each with the backend behaviour it meets. -/
def runOps (api : ApiService) : List (Backend × Op) → AuthState × World → AuthState × World
  | [], sw => sw
  | (net, op) :: rest, sw => runOps api rest (runOp api net op sw)

/-- The Session invariant: `isAuthenticated` is true exactly when `user` is present. -/
def sessionInvariant (s : AuthState) : Bool :=
  s.isAuthenticated == s.user.isPresent

/-! ## Query strings -/

/-- Characters that the `application/x-www-form-urlencoded` serialisation leaves as they are. -/
def plainChar (c : Char) : Bool :=
  c.isAlphanum || c = '*' || c = '-' || c = '.' || c = '_'

/-- A name or value made of characters that the serialisation leaves as they are. -/
def plainText (s : String) : Bool :=
  s.data.all plainChar

/-- The params object with the given string values. -/
def stringParams (pairs : Props String) : Props JsVal :=
  pairs.map (fun kv => (kv.1, JsVal.str kv.2))

/-- The URL that `get(endpoint, params)` hands to `fetch`: the `url` of the request it logs. -/
def requestedUrl (api : ApiService) (net : Backend) (w : World) (endpoint : String)
    (params : Props JsVal) : Option String :=
  ((api.get net w endpoint params).2.sent.drop w.sent.length).head?.map (fun r => r.url)

/-! ## The wire table -/

/-- The outcome `out` of an operation run in the world `w` comes with exactly one request
handed to `fetch`, of the given method, path and body. -/
def IssuesOne (api : ApiService) (w : World) (method path : String) (body : Option JsVal)
    (out : Except String JsVal × World) : Prop :=
  ∃ r : Request, out.2.sent = w.sent ++ [r] ∧ r.method = some method
    ∧ r.url = api.baseURL ++ path ∧ r.body = body

/-- What the gateway gives for the request of the given method, path and body. -/
def gatewayResult (api : ApiService) (net : Backend) (w : World) (method path : String)
    (body : Option JsVal) : Except String JsVal :=
  (api.request net w path { method := some method, body := body }).1

/-- The body that `post`, `put` and `patch` hand on for the argument `data`: the value `data`,
and the empty object `{}` when `data` is `undefined` (the default of their parameter). -/
def bodyOf (data : JsVal) : Option JsVal :=
  some (data.withDefault (.obj []))

/-- The path of `getTasks(filters)`: `/tasks`, followed by the query of the filters if any. -/
def tasksPath (filters : Props JsVal) : String :=
  if URLSearchParams.toString (Props.entries filters) ≠ ""
  then "/tasks" ++ "?" ++ URLSearchParams.toString (Props.entries filters)
  else "/tasks"

/-- A browser without `window` (rendering on the server). -/
def noWindow : World :=
  { hasWindow := false, localStorage := [], sent := [] }

/-! ## The provider with operations suspended at their `await` -/

/-- The part of `request` after `await fetch(url, config)`: what the call settles to for an
outcome of `fetch`. -/
def ApiService.settle (o : FetchOutcome) : Except String JsVal :=
  match o with
  | .rejected m => .error m
  | .resolved response =>
    match response.body with
    | .error m => .error m
    | .ok data =>
      if !response.ok then
        match data.readProp "message" with
        | .error m => .error m
        | .ok msg =>
          if msg.truthy then .error msg.errorMessage
          else .error ("HTTP error! status: " ++ toString response.status)
      else .ok data

/-- The part of `request` before the `await`: the configuration is built and handed to
`fetch`. -/
def ApiService.send (api : ApiService) (w : World) (endpoint : String) (options : Options) :
    World :=
  { w with sent := w.sent ++ [api.requestConfig w endpoint options] }

/-- An operation of the provider that is suspended at its `await`. -/
inductive Suspended where
  | loadUser
  | login
  | register
  | logout
  | updateProfile

/-- The operations whose start the claim refers to: `loadUser`, `login` and `register`. -/
def Suspended.isLoadingOp : Suspended → Bool
  | .loadUser => true
  | .login => true
  | .register => true
  | .logout => false
  | .updateProfile => false

/-- Actions that leave `isLoading` as it is. -/
def AuthAction.keepsLoading : AuthAction → Bool
  | .CLEAR_ERROR => true
  | .UPDATE_USER _ => true
  | .OTHER _ => true
  | _ => false

/-- The running provider: the Session, the environment, the operations that have started and
not yet completed, and the actions dispatched since startup (oldest first). -/
structure Machine where
  session : AuthState
  world : World
  suspended : List Suspended
  dispatched : List AuthAction

namespace Machine

/-- The provider at startup. -/
def init (w : World) : Machine :=
  { session := initialState, world := w, suspended := [], dispatched := [] }

/-- The call `dispatch(action)`. -/
def dispatch (m : Machine) (a : AuthAction) : Machine :=
  { m with session := authReducer m.session a, dispatched := m.dispatched ++ [a] }

/-- The call of an operation: the operation runs up to its `await` and is suspended there
(`clearError`, and `loadUser` without a token, run to their end). -/
def call (api : ApiService) (op : Op) (m : Machine) : Machine :=
  match op with
  | .loadUser =>
    let token := ApiService.getAuthToken m.world
    if token = none ∨ token = some "" then m.dispatch (.LOAD_USER_FAILURE "No token found")
    else
      let m1 := m.dispatch .LOAD_USER_START
      { m1 with world := api.send m1.world "/auth/me" { method := some "GET" },
                suspended := m1.suspended ++ [.loadUser] }
  | .login credentials =>
    let m1 := m.dispatch .LOGIN_START
    { m1 with world := api.send m1.world "/auth/login"
                { method := some "POST", body := some (credentials.withDefault (.obj [])) },
              suspended := m1.suspended ++ [.login] }
  | .register userData =>
    let m1 := m.dispatch .LOGIN_START
    { m1 with world := api.send m1.world "/auth/register"
                { method := some "POST", body := some (userData.withDefault (.obj [])) },
              suspended := m1.suspended ++ [.register] }
  | .logout =>
    { m with world := ApiService.removeAuthToken m.world,
             suspended := m.suspended ++ [.logout] }
  | .updateProfile userData =>
    { m with world := api.send m.world "/auth/profile"
               { method := some "PUT", body := some (userData.withDefault (.obj [])) },
             suspended := m.suspended ++ [.updateProfile] }
  | .clearError => m.dispatch .CLEAR_ERROR

/-- The rest of `login` and of `register` after the `await`, for the outcome `o` of `fetch`. -/
def resumeLogin (o : FetchOutcome) (m : Machine) : Machine :=
  match ApiService.settle o with
  | .error e => m.dispatch (.LOGIN_FAILURE e)
  | .ok response =>
    match response.readProp "token" with
    | .error e => m.dispatch (.LOGIN_FAILURE e)
    | .ok token =>
      if token.truthy && ApiService.setAuthTokenThrows m.world token then
        m.dispatch (.LOGIN_FAILURE JsVal.conversionError)
      else
        let m1 := if token.truthy then { m with world := ApiService.setAuthToken m.world token }
          else m
        match response.readProp "user" with
        | .error e => m1.dispatch (.LOGIN_FAILURE e)
        | .ok user =>
          let m2 := m1.dispatch (.LOGIN_SUCCESS user)
          match response.readProp "message" with
          | .ok _ => m2
          | .error e => m2.dispatch (.LOGIN_FAILURE e)

/-- The rest of `loadUser` after the `await`. -/
def resumeLoadUser (o : FetchOutcome) (m : Machine) : Machine :=
  match ApiService.settle o with
  | .error e =>
    ({ m with world := ApiService.removeAuthToken m.world }).dispatch (.LOAD_USER_FAILURE e)
  | .ok response =>
    match response.readProp "user" with
    | .ok user => m.dispatch (.LOAD_USER_SUCCESS user)
    | .error e =>
      ({ m with world := ApiService.removeAuthToken m.world }).dispatch (.LOAD_USER_FAILURE e)

/-- The rest of `updateProfile` after the `await`. -/
def resumeUpdateProfile (o : FetchOutcome) (m : Machine) : Machine :=
  match ApiService.settle o with
  | .error _ => m
  | .ok response =>
    match response.readProp "user" with
    | .ok user => m.dispatch (.UPDATE_USER user)
    | .error _ => m

/-- The `i`-th suspended operation resumes and runs to its end; `o` is the outcome of its
`fetch` (`logout` awaits no `fetch` and ignores it). -/
def resume (i : Nat) (o : FetchOutcome) (m : Machine) : Machine :=
  match m.suspended[i]? with
  | none => m
  | some op =>
    let m1 := { m with suspended := m.suspended.eraseIdx i }
    match op with
    | .login => resumeLogin o m1
    | .register => resumeLogin o m1
    | .loadUser => resumeLoadUser o m1
    | .logout => m1.dispatch .LOGOUT
    | .updateProfile => resumeUpdateProfile o m1

end Machine

/-- What happens to the provider: an operation is called, or a suspended one resumes. -/
inductive Event where
  | call (op : Op)
  | resume (i : Nat) (o : FetchOutcome)

/-- One event. -/
def Machine.step (api : ApiService) (e : Event) (m : Machine) : Machine :=
  match e with
  | .call op => m.call api op
  | .resume i o => m.resume i o

/-- A finite sequence of events, in any interleaving. -/
def Machine.run (api : ApiService) : List Event → Machine → Machine
  | [], m => m
  | e :: rest, m => Machine.run api rest (m.step api e)

/-- Whether `login` or `register`, given the parsed `response`, fails while it stores the
token: the token is truthy and `setAuthToken` throws. -/
def ApiService.storeThrows (w : World) (response : JsVal) : Bool :=
  (response.field "token").truthy && ApiService.setAuthTokenThrows w (response.field "token")

/-- Whether the event `e`, in the state `m` of the provider, meets the two conditions on which
the Session invariant rests: a response on which `login`, `register` or `loadUser` succeeds
carries a present `user`, and a response on which `updateProfile` succeeds arrives while the
Session is authenticated.  A call, a request that fails, a `login` or `register` that fails
while it stores the token, and the completion of `logout` meet them always. -/
def Machine.admits (m : Machine) (e : Event) : Bool :=
  match e with
  | .call _ => true
  | .resume i o =>
    match m.suspended[i]?, ApiService.settle o with
    | some op, .ok response =>
      match response.readProp "user" with
      | .error _ => true
      | .ok user =>
        match op with
        | .login => user.isPresent || ApiService.storeThrows m.world response
        | .register => user.isPresent || ApiService.storeThrows m.world response
        | .loadUser => user.isPresent
        | .updateProfile => m.session.isAuthenticated
        | .logout => true
    | _, _ => true

/-- Every event of the run meets the two conditions in the state in which it happens. -/
def Machine.Admissible (api : ApiService) : List Event → Machine → Prop
  | [], _ => True
  | e :: rest, m => m.admits e = true ∧ Machine.Admissible api rest (m.step api e)

/-! ## The login form (`AuthForm.jsx`) -/

/-- The state `formData` of the form; its fields are the texts of the inputs. -/
structure FormData where
  name : String
  email : String
  password : String

/-- The object `{ email, password }` that `handleSubmit` passes to `login`. -/
def FormData.credentials (formData : FormData) : JsVal :=
  .obj [("email", .str formData.email), ("password", .str formData.password)]

/-- The object `{ name, email, password }` that `handleSubmit` passes to `register`. -/
def FormData.userData (formData : FormData) : JsVal :=
  .obj [("name", .str formData.name), ("email", .str formData.email),
        ("password", .str formData.password)]

/-- A call that the form makes to an operation obtained from `useAuth()`. -/
inductive AuthCall where
  | login (credentials : JsVal)
  | register (userData : JsVal)

/-- What `handleSubmit` leaves behind: the state `formError`, the Session and the environment,
and the calls it made to `login` and `register`, in order. -/
structure SubmitResult where
  formError : String
  session : AuthState
  world : World
  calls : List AuthCall

/-- The text `result.error || 'Authentication failed'` shown for a result without success, and
the empty text set by `setFormError('')` otherwise. -/
def submitError (result : OpResult) : String :=
  if !result.success then
    match result.error with
    | some e => if e ≠ "" then e else "Authentication failed"
    | none => "Authentication failed"
  else ""

/-- The handler `handleSubmit(e)` of the form, in login mode (`isLogin`) or registration mode.
`login` and `register` resolve for every input, so the `catch` of the handler is not taken. -/
def handleSubmit (api : ApiService) (net : Backend) (isLogin : Bool) (formData : FormData)
    (session : AuthState) (world : World) : SubmitResult :=
  if formData.email = "" ∨ formData.password = "" then
    { formError := "Please fill in all required fields", session := session, world := world,
      calls := [] }
  else if isLogin = false ∧ formData.name = "" then
    { formError := "Please enter your name", session := session, world := world, calls := [] }
  else if isLogin then
    let r := AuthProvider.login api net session world formData.credentials
    { formError := submitError r.2.2, session := r.1, world := r.2.1,
      calls := [.login formData.credentials] }
  else
    let r := AuthProvider.register api net session world formData.userData
    { formError := submitError r.2.2, session := r.1, world := r.2.1,
      calls := [.register formData.userData] }

/-- The invariant on the loading flag: when `isLoading` is true, a loading operation is
suspended or only actions that keep `isLoading` have been dispatched. -/
def LoadingJustified (m : Machine) : Prop :=
  m.session.isLoading = true →
    m.suspended.any Suspended.isLoadingOp = true ∨ m.dispatched.all AuthAction.keepsLoading = true

/-! ## The dashboard (`tasktracker.jsx`) -/

namespace JsVal

/-- Strict equality `a === b` of primitive values; `NaN` is not equal to itself.  Two objects
or arrays are equal only as references, which the embedding does not track: for them the
result is `false`, so identifiers are taken to be primitive values. -/
def strictEq : JsVal → JsVal → Bool
  | undefined, undefined => true
  | null, null => true
  | bool a, bool b => a == b
  | num a, num b => a == b && a != "NaN"
  | str a, str b => a == b
  | _, _ => false

/-- The elements of the array on which an array method (`filter`, `find`, `map`) is called;
the call throws on any other value. -/
def elements (v : JsVal) (method : String) : Except String (List JsVal) :=
  match v with
  | arr items => .ok items
  | undefined => .error (typeErrorMessage v method)
  | null => .error (typeErrorMessage v method)
  | _ => .error ("tasks." ++ method ++ " is not a function")

/-- The elements produced by the spread `[...tasks]`: those of an array, the characters of a
string; other values are not iterable. -/
def iterate (v : JsVal) : Except String (List JsVal) :=
  match v with
  | arr items => .ok items
  | str s => .ok (s.data.map (fun c => str (String.singleton c)))
  | undefined => .error "tasks is not iterable (cannot read property Symbol(Symbol.iterator))"
  | null => .error "tasks is not iterable (cannot read property Symbol(Symbol.iterator))"
  | _ => .error "tasks is not iterable"

/-- The text `v.toLowerCase()` for the given lower-casing of strings, where `v` is the value
of the expression `expr`; the call throws when `v` is not a string. -/
def lowered (toLowerCase : String → String) (expr : String) (v : JsVal) : Except String String :=
  match v with
  | str s => .ok (toLowerCase s)
  | undefined => .error (typeErrorMessage v "toLowerCase")
  | null => .error (typeErrorMessage v "toLowerCase")
  | _ => .error (expr ++ ".toLowerCase is not a function")

end JsVal

/-- The test `s.includes(t)`: `t` occurs in `s` as a substring. -/
def includes (s t : String) : Bool :=
  s.data.tails.any (fun l => t.data.isPrefixOf l)

/-- White space and line terminators, the characters that `trim()` strips. -/
def isWhiteSpace (c : Char) : Bool :=
  [9, 10, 11, 12, 13, 32, 160, 5760, 8192, 8193, 8194, 8195, 8196, 8197, 8198, 8199, 8200, 8201,
    8202, 8232, 8233, 8239, 8287, 12288, 65279].contains c.toNat

/-- The test `s.trim() === ''`. -/
def trimIsEmpty (s : String) : Bool :=
  s.data.all isWhiteSpace

/-- The expression `list.map(f)` for a callback that may throw: elements are visited in order
and the first throw ends the call. -/
def mapThrowing (f : JsVal → Except String JsVal) : List JsVal → Except String (List JsVal)
  | [] => .ok []
  | x :: rest =>
    match f x with
    | .error e => .error e
    | .ok y =>
      match mapThrowing f rest with
      | .error e => .error e
      | .ok ys => .ok (y :: ys)

/-- The expression `list.filter(p)` for a callback that may throw. -/
def filterThrowing (p : JsVal → Except String Bool) : List JsVal → Except String (List JsVal)
  | [] => .ok []
  | x :: rest =>
    match p x with
    | .error e => .error e
    | .ok b =>
      match filterThrowing p rest with
      | .error e => .error e
      | .ok ys => .ok (if b then x :: ys else ys)

/-- The expression `list.find(p)` for a callback that may throw: the first element that passes,
`undefined` when none does; elements after it are not visited. -/
def findThrowing (p : JsVal → Except String Bool) : List JsVal → Except String JsVal
  | [] => .ok .undefined
  | x :: rest =>
    match p x with
    | .error e => .error e
    | .ok b => if b then .ok x else findThrowing p rest

/-- The state `selectedFilters`; the values are those of the three select boxes. -/
structure SelectedFilters where
  status : String
  priority : String
  category : String

/-- The state `newTask`; the values are the texts of the inputs of the form. -/
structure NewTask where
  title : String
  description : String
  priority : String
  category : String
  dueDate : String

/-- The object held in the state `newTask`. -/
def NewTask.toJs (t : NewTask) : JsVal :=
  .obj [("title", .str t.title), ("description", .str t.description),
        ("priority", .str t.priority), ("category", .str t.category),
        ("dueDate", .str t.dueDate)]

/-- The value to which `addTask` resets the form. -/
def NewTask.blank : NewTask :=
  { title := "", description := "", priority := "medium", category := "work", dueDate := "" }

/-- The state of the component `TaskManager` that its handlers read and write (`darkMode` and
`showFilters` are left out). -/
structure TaskManager where
  searchTerm : String
  showAddTask : Bool
  editingTask : JsVal
  loading : Bool
  /-- Field value: `none` is `null` -/
  error : Option String
  selectedFilters : SelectedFilters
  newTask : NewTask
  tasks : JsVal

namespace TaskManager

/-- The state with which the component starts. -/
def initial : TaskManager :=
  { searchTerm := "", showAddTask := false, editingTask := .null, loading := false,
    error := none, selectedFilters := { status := "all", priority := "all", category := "all" },
    newTask := NewTask.blank, tasks := .arr [] }

/-- The callback of `filteredTasks`: whether a task passes the search and the three filters. -/
def matchesTask (toLowerCase : String → String) (searchTerm : String)
    (selectedFilters : SelectedFilters) (task : JsVal) : Except String Bool :=
  match task.readProp "title" with
  | .error e => .error e
  | .ok title =>
    match title.lowered toLowerCase "task.title" with
    | .error e => .error e
    | .ok titleLower =>
      let bySearch : Except String Bool :=
        if includes titleLower (toLowerCase searchTerm) then .ok true
        else
          match task.readProp "description" with
          | .error e => .error e
          | .ok description =>
            match description.lowered toLowerCase "task.description" with
            | .error e => .error e
            | .ok descriptionLower => .ok (includes descriptionLower (toLowerCase searchTerm))
      match bySearch with
      | .error e => .error e
      | .ok matchesSearch =>
        match task.readProp "status", task.readProp "priority", task.readProp "category" with
        | .ok status, .ok priority, .ok category =>
          let matchesStatus :=
            selectedFilters.status = "all" || status.strictEq (.str selectedFilters.status)
          let matchesPriority :=
            selectedFilters.priority = "all" || priority.strictEq (.str selectedFilters.priority)
          let matchesCategory :=
            selectedFilters.category = "all" || category.strictEq (.str selectedFilters.category)
          .ok (matchesSearch && matchesStatus && matchesPriority && matchesCategory)
        | .error e, _, _ => .error e
        | _, .error e, _ => .error e
        | _, _, .error e => .error e

/-- The value `filteredTasks` computed while rendering, for a list of tasks. -/
def filteredTasks (toLowerCase : String → String) (searchTerm : String)
    (selectedFilters : SelectedFilters) (tasks : List JsVal) : Except String (List JsVal) :=
  filterThrowing (matchesTask toLowerCase searchTerm selectedFilters) tasks

/-- The identifier that the view passes to the handlers: `task._id || task.id`. -/
def viewTaskId (task : JsVal) : Except String JsVal :=
  match task.readProp "_id" with
  | .error e => .error e
  | .ok i => if i.truthy then .ok i else task.readProp "id"

/-- The part of `loadTasks` before its `await`: the flags are set and `getTasks()` hands its
request to `fetch`. -/
def loadTasksCall (api : ApiService) (d : TaskManager) (w : World) : TaskManager × World :=
  ({ d with loading := true, error := none }, api.send w "/tasks" { method := some "GET" })

/-- The part of `loadTasks` after its `await`, for the outcome `o` of `fetch`. -/
def loadTasksResume (o : FetchOutcome) (d : TaskManager) : TaskManager :=
  match ApiService.settle o with
  | .error _ => { d with error := some "Failed to load tasks. Please try again.", loading := false }
  | .ok response =>
    match response.readProp "tasks" with
    | .error _ =>
      { d with error := some "Failed to load tasks. Please try again.", loading := false }
    | .ok tasks => { d with tasks := if tasks.truthy then tasks else .arr [], loading := false }

/-- Add new task: `addTask()`, up to and including its call of `loadTasks()`. -/
def addTask (api : ApiService) (net : Backend) (d : TaskManager) (w : World) :
    TaskManager × World :=
  if trimIsEmpty d.newTask.title then (d, w)
  else
    match api.createTask net w d.newTask.toJs with
    | (.error _, w1) =>
      ({ d with error := some "Failed to add task. Please try again.", loading := false }, w1)
    | (.ok response, w1) =>
      match d.tasks.iterate, response.readProp "task" with
      | .ok items, .ok task =>
        let d1 := { d with tasks := .arr (items ++ [task]), newTask := NewTask.blank,
                           showAddTask := false }
        let r := loadTasksCall api d1 w1
        ({ r.1 with loading := false }, r.2)
      | _, _ =>
        ({ d with error := some "Failed to add task. Please try again.", loading := false }, w1)

/-- Delete task: `deleteTask(taskId)`, up to and including its call of `loadTasks()`. -/
def deleteTask (api : ApiService) (net : Backend) (d : TaskManager) (w : World)
    (taskId : JsVal) : TaskManager × World :=
  match api.deleteTask net w taskId with
  | (.error _, w1) =>
    ({ d with error := some "Failed to delete task. Please try again.", loading := false }, w1)
  | (.ok _, w1) =>
    let kept : Except String (List JsVal) := match d.tasks.elements "filter" with
      | .error e => .error e
      | .ok items =>
        filterThrowing (fun task =>
          match task.readProp "_id" with
          | .error e => .error e
          | .ok i => .ok (!(i.strictEq taskId))) items
    match kept with
    | .error _ =>
      ({ d with error := some "Failed to delete task. Please try again.", loading := false }, w1)
    | .ok items =>
      let r := loadTasksCall api { d with tasks := .arr items } w1
      ({ r.1 with loading := false }, r.2)

/-- The object `{ ...task, status: newStatus, completed: newStatus === 'completed' }`. -/
def withStatus (task : JsVal) (newStatus : String) : JsVal :=
  .obj (((Props.assign [] task.ownProps).set "status" (.str newStatus)).set "completed"
    (.bool (newStatus = "completed")))

/-- Toggle task completion: `toggleTaskStatus(taskId)`, up to and including its call of
`loadTasks()`. -/
def toggleTaskStatus (api : ApiService) (net : Backend) (d : TaskManager) (w : World)
    (taskId : JsVal) : TaskManager × World :=
  let failed : TaskManager :=
    { d with error := some "Failed to update task status. Please try again." }
  let found : Except String JsVal := match d.tasks.elements "find" with
    | .error e => .error e
    | .ok items =>
      findThrowing (fun t =>
        match t.readProp "_id" with
        | .error e => .error e
        | .ok i => .ok (i.strictEq taskId)) items
  match found with
  | .error _ => (failed, w)
  | .ok task =>
    match task.readProp "status" with
    | .error _ => (failed, w)
    | .ok status =>
      let newStatus := if status.strictEq (.str "completed") then "pending" else "completed"
      match api.updateTaskStatus net w taskId (.str newStatus) with
      | (.error _, w1) => (failed, w1)
      | (.ok _, w1) =>
        let updated : Except String (List JsVal) := match d.tasks.elements "map" with
          | .error e => .error e
          | .ok items =>
            mapThrowing (fun task =>
              match task.readProp "_id" with
              | .error e => .error e
              | .ok i => .ok (if i.strictEq taskId then withStatus task newStatus else task))
              items
        match updated with
        | .error _ => (failed, w1)
        | .ok items => loadTasksCall api { d with tasks := .arr items } w1

/-- Update task priority: `updateTaskPriority(taskId, newPriority)`. -/
def updateTaskPriority (api : ApiService) (net : Backend) (d : TaskManager) (w : World)
    (taskId newPriority : JsVal) : TaskManager × World :=
  let failed : TaskManager :=
    { d with error := some "Failed to update task priority. Please try again." }
  match api.updateTask net w taskId (.obj [("priority", newPriority)]) with
  | (.error _, w1) => (failed, w1)
  | (.ok _, w1) =>
    let updated : Except String (List JsVal) := match d.tasks.elements "map" with
      | .error e => .error e
      | .ok items =>
        mapThrowing (fun task =>
          match task.readProp "_id" with
          | .error e => .error e
          | .ok i =>
            .ok (if i.strictEq taskId
              then .obj ((Props.assign [] task.ownProps).set "priority" newPriority)
              else task)) items
    match updated with
    | .error _ => (failed, w1)
    | .ok items => ({ d with tasks := .arr items }, w1)

/-- Save edited task: `saveEditTask()`, up to and including its call of `loadTasks()`. -/
def saveEditTask (api : ApiService) (net : Backend) (d : TaskManager) (w : World) :
    TaskManager × World :=
  let failed : TaskManager :=
    { d with error := some "Failed to update task. Please try again.", loading := false }
  match d.editingTask.readProp "_id" with
  | .error _ => (failed, w)
  | .ok editingId =>
    match api.updateTask net w editingId d.editingTask with
    | (.error _, w1) => (failed, w1)
    | (.ok _, w1) =>
      let updated : Except String (List JsVal) := match d.tasks.elements "map" with
        | .error e => .error e
        | .ok items =>
          mapThrowing (fun task =>
            match task.readProp "_id" with
            | .error e => .error e
            | .ok i => .ok (if i.strictEq editingId then d.editingTask else task)) items
      match updated with
      | .error _ => (failed, w1)
      | .ok items =>
        let r := loadTasksCall api { d with tasks := .arr items, editingTask := .null } w1
        ({ r.1 with loading := false }, r.2)

end TaskManager

/-- The method and the URL of every request handed to `fetch`, oldest first. -/
def World.wire (w : World) : List (Option String × String) :=
  w.sent.map (fun r => (r.method, r.url))

/-- The filter of the dashboard in the words of its description: the task passes when its
title or its description contains the search term, both in lower case, and its status,
priority and category each equal the selected filter or the filter is `all`. -/
def passesFilters (toLowerCase : String → String) (searchTerm : String)
    (selectedFilters : SelectedFilters) (task : JsVal) : Bool :=
  let contains := fun (field : String) =>
    match task.field field with
    | .str s => includes (toLowerCase s) (toLowerCase searchTerm)
    | _ => false
  let equalsOrAll := fun (selected : String) (field : String) =>
    selected = "all" || (task.field field).strictEq (.str selected)
  (contains "title" || contains "description")
    && equalsOrAll selectedFilters.status "status"
    && equalsOrAll selectedFilters.priority "priority"
    && equalsOrAll selectedFilters.category "category"

/-- A task as the data model describes it, as far as the filter reads it: an object whose
title and description are strings. -/
def isTask (task : JsVal) : Bool :=
  match task with
  | .obj _ =>
    (match task.field "title" with | .str _ => true | _ => false)
      && (match task.field "description" with | .str _ => true | _ => false)
  | _ => false

/-! ## Sample data -/

/-- A browser with an empty `localStorage` and no request sent. -/
def freshBrowser : World :=
  { hasWindow := true, localStorage := [], sent := [] }

/-- The service against the default base URL. -/
def localApi : ApiService :=
  { baseURL := API_BASE_URL none }

/-- A backend that answers every request with the given status and JSON body. -/
def answering (status : Nat) (body : JsVal) : Backend :=
  fun _ => .resolved { status := status, body := .ok body }

/-- The user of the sample scenario. -/
def sampleUser : JsVal :=
  .obj [("id", .num "1"), ("email", .str "a@b.com")]

/-- The credentials of the sample scenario. -/
def sampleCredentials : JsVal :=
  .obj [("email", .str "a@b.com"), ("password", .str "x")]

/-- A successful login response `{token: "T1", user: {id: 1, email: "a@b.com"}}`. -/
def loginOk : JsVal :=
  .obj [("token", .str "T1"), ("user", sampleUser)]

/-- A browser whose Credential Store already holds the token `OLD`. -/
def browserWithOldToken : World :=
  { hasWindow := true, localStorage := [("taskflow_token", "OLD")], sent := [] }

/-- A Session in which the sample user is logged in. -/
def loggedIn : AuthState :=
  { user := sampleUser, isAuthenticated := true, isLoading := false, error := none }

/-- A successful profile-update response that returns a new email and a name. -/
def profileOk : JsVal :=
  .obj [("message", .str "Profile updated"),
        ("user", .obj [("email", .str "c@d.com"), ("name", .str "Ann")])]

/-- A run that breaks the Session invariant: a login that succeeds, a second login that the backend
rejects with status 401, then a profile update that the backend accepts. -/
def staleTokenRun : List (Backend × Op) :=
  [ (answering 200 loginOk, .login sampleCredentials),
    (answering 401 (.obj [("message", .str "invalid credentials")]), .login sampleCredentials),
    (answering 200 (.obj [("user", .obj [("name", .str "Ann")])]),
      .updateProfile (.obj [("name", .str "Ann")])) ]

/-- A run that breaks the Session invariant by an interleaving: a login that succeeds, a
profile update that is called, a logout that is called and completes while the update is in
flight, and then the update completing with a response that the backend accepted. -/
def lateUpdateRun : List Event :=
  [ .call (.login sampleCredentials),
    .resume 0 (.resolved (Response.mk 200 (.ok loginOk))),
    .call (.updateProfile (.obj [("name", .str "Ann")])),
    .call .logout,
    .resume 1 (.rejected ""),
    .resume 0 (.resolved
      (Response.mk 200 (.ok (.obj [("user", .obj [("name", .str "Ann")])])))) ]

/-- A run that keeps the two conditions: a login that succeeds, a profile update that completes
while the Session is authenticated, a login that the backend rejects, and a logout. -/
def orderlyRun : List Event :=
  [ .call (.login sampleCredentials),
    .resume 0 (.resolved (Response.mk 200 (.ok loginOk))),
    .call (.updateProfile (.obj [("name", .str "Ann")])),
    .resume 0 (.resolved
      (Response.mk 200 (.ok (.obj [("user", .obj [("name", .str "Ann")])])))),
    .call (.login sampleCredentials),
    .resume 0 (.resolved
      (Response.mk 401 (.ok (.obj [("message", .str "invalid credentials")])))),
    .call .logout,
    .resume 0 (.rejected "") ]

/-- The provider with a login in flight, right after startup. -/
def loginInFlight : Machine :=
  Machine.call localApi (.login sampleCredentials) (Machine.init freshBrowser)

/-- An object that has a property `toString`, so that its string conversion throws. -/
def unprintable : JsVal :=
  .obj [("toString", .num "1")]

/-- A response with status 200 whose body `{token: "T1"}` has no user. -/
def tokenOnly : FetchOutcome :=
  .resolved (Response.mk 200 (.ok (.obj [("token", .str "T1")])))

/-! ## Sample data of the dashboard -/

/-- A task as the backend returns it, with the identifier `_id`. -/
def sampleTask : JsVal :=
  .obj [("_id", .str "1"), ("title", .str "Write report"),
        ("description", .str "Quarterly numbers"), ("status", .str "pending"),
        ("priority", .str "low"), ("category", .str "work")]

/-- A task that has the identifier `id` of the data model and no `_id`. -/
def taskWithId : JsVal :=
  .obj [("id", .str "7"), ("title", .str "Book room"), ("description", .str ""),
        ("status", .str "pending"), ("priority", .str "medium"), ("category", .str "meetings")]

/-- The dashboard showing the one task `sampleTask`, with no error and not loading. -/
def dashboardWithTask : TaskManager :=
  { TaskManager.initial with tasks := .arr [sampleTask] }

/-- A backend that accepts every mutation and answers with the task. -/
def acceptingBackend : Backend :=
  answering 200 (.obj [("message", .str "ok"), ("task", sampleTask)])

/-- Lower-casing of the ASCII letters, character by character. -/
def asciiLower (s : String) : String :=
  String.mk (s.data.map Char.toLower)

/-! ## Lemmas on properties -/

namespace Props

theorem get_append_single {α : Type} (o : Props α) (k : String) (v : α) :
    get (o ++ [(k, v)]) k = some v := by
  induction o with
  | nil => simp [get]
  | cons kv rest ih => obtain ⟨k', v'⟩ := kv; simp [get, ih]

theorem get_append_single_ne {α : Type} (o : Props α) (k k' : String) (v : α) (h : k ≠ k') :
    get (o ++ [(k, v)]) k' = get o k' := by
  induction o with
  | nil => simp [get, h]
  | cons kv rest ih => obtain ⟨k1, v1⟩ := kv; simp [get, ih]

theorem get_remove {α : Type} (o : Props α) (k : String) : get (remove o k) k = none := by
  induction o with
  | nil => simp [remove, get]
  | cons kv rest ih =>
    obtain ⟨k1, v1⟩ := kv
    by_cases h : k1 = k
    · simpa [remove, h] using ih
    · have ih' : get (List.filter (fun kv => !decide (kv.1 = k)) rest) k = none := ih
      simp [remove, h, get, ih']

theorem has_eq_false_get {α : Type} (o : Props α) (k : String) (h : has o k = false) :
    get o k = none := by
  induction o with
  | nil => simp [get]
  | cons kv rest ih =>
    obtain ⟨k1, v1⟩ := kv
    simp [has] at h
    have hr : has rest k = false := by simpa [has] using h.2
    simp [get, ih hr, h.1]

theorem get_cons {α : Type} (k1 : String) (v1 : α) (rest : Props α) (k : String) :
    get ((k1, v1) :: rest) k = (get rest k).orElse (fun _ => if k1 = k then some v1 else none) := by
  cases h : get rest k <;> simp [get, h]

theorem has_cons {α : Type} (k1 : String) (v1 : α) (rest : Props α) (k : String) :
    has ((k1, v1) :: rest) k = (decide (k1 = k) || has rest k) := by
  simp [has]

theorem get_map_set_eq {α : Type} (o : Props α) (k : String) (v : α) :
    get (o.map (fun kv => if kv.1 = k then (k, v) else kv)) k
      = if has o k = true then some v else none := by
  induction o with
  | nil => simp [has, get]
  | cons kv rest ih =>
    obtain ⟨k1, v1⟩ := kv
    rw [List.map_cons, has_cons]
    by_cases hr : has rest k = true <;> by_cases hk : k1 = k
    · rw [if_pos hk, get_cons, ih]; simp [hr]
    · rw [if_neg hk, get_cons, ih]; simp [hr]
    · rw [if_pos hk, get_cons, ih]; simp [hr, hk]
    · rw [if_neg hk, get_cons, ih]; simp [hr, hk]

theorem get_map_set {α : Type} (o : Props α) (k : String) (v : α) (h : has o k = true) :
    get (o.map (fun kv => if kv.1 = k then (k, v) else kv)) k = some v := by
  rw [get_map_set_eq, if_pos h]

theorem get_map_set_ne {α : Type} (o : Props α) (k k' : String) (v : α) (h : k ≠ k') :
    get (o.map (fun kv => if kv.1 = k then (k, v) else kv)) k' = get o k' := by
  induction o with
  | nil => simp [get]
  | cons kv rest ih =>
    obtain ⟨k1, v1⟩ := kv
    rw [List.map_cons]
    by_cases hk : k1 = k
    · rw [if_pos hk, get_cons, get_cons, ih]
      subst hk; simp [h]
    · rw [if_neg hk, get_cons, get_cons, ih]

theorem get_set_self {α : Type} (o : Props α) (k : String) (v : α) :
    get (set o k v) k = some v := by
  unfold set
  split
  · next h => exact get_map_set o k v h
  · exact get_append_single o k v

theorem get_set_ne {α : Type} (o : Props α) (k k' : String) (v : α) (h : k ≠ k') :
    get (set o k v) k' = get o k' := by
  unfold set
  split
  · exact get_map_set_ne o k k' v h
  · exact get_append_single_ne o k k' v h

theorem get_assign {α : Type} (src target : Props α) (k : String) :
    get (assign target src) k = (get src k).orElse (fun _ => get target k) := by
  induction src generalizing target with
  | nil => simp [assign, get]
  | cons kv rest ih =>
    obtain ⟨k1, v1⟩ := kv
    have hstep : assign target ((k1, v1) :: rest) = assign (set target k1 v1) rest := by
      simp [assign]
    rw [hstep, ih]
    cases hr : get rest k with
    | some w => simp [get, hr]
    | none =>
      by_cases hk : k1 = k
      · subst hk; simp [get, hr, get_set_self]
      · simp [get, hr, hk, get_set_ne _ _ _ _ hk]

theorem has_append_single {α : Type} (o : Props α) (k k' : String) (v : α) :
    has (o ++ [(k, v)]) k' = (has o k' || decide (k = k')) := by
  simp [has, List.any_append]

theorem assign_cons {α : Type} (target : Props α) (kv : String × α) (rest : Props α) :
    assign target (kv :: rest) = assign (set target kv.1 kv.2) rest := by
  simp [assign]

theorem assign_append_of_fresh {α : Type} (o acc : Props α)
    (hnd : (o.map Prod.fst).Nodup) (hfresh : ∀ kv ∈ o, has acc kv.1 = false) :
    assign acc o = acc ++ o := by
  induction o generalizing acc with
  | nil => simp [assign]
  | cons kv rest ih =>
    obtain ⟨k, v⟩ := kv
    have hk : has acc k = false := hfresh (k, v) (List.mem_cons_self _ _)
    have hset : set acc k v = acc ++ [(k, v)] := by simp [set, hk]
    rw [assign_cons, hset]
    have hnd' : (rest.map Prod.fst).Nodup := (List.nodup_cons.mp (by simpa using hnd)).2
    have hknot : k ∉ rest.map Prod.fst := (List.nodup_cons.mp (by simpa using hnd)).1
    rw [ih (acc ++ [(k, v)]) hnd']
    · simp
    · intro kv' hkv'
      rw [has_append_single, hfresh kv' (List.mem_cons_of_mem _ hkv')]
      have hne : k ≠ kv'.1 := by
        intro he
        exact hknot (he ▸ List.mem_map_of_mem Prod.fst hkv')
      simp [hne]

theorem entries_eq_self {α : Type} (o : Props α) (hnd : (o.map Prod.fst).Nodup)
    (hidx : ∀ kv ∈ o, isArrayIndex kv.1 = false) : entries o = o := by
  have hn : assign [] o = o := by
    rw [assign_append_of_fresh o [] hnd (by intro kv _; rfl)]
    rfl
  have h1 : o.filter (fun kv => isArrayIndex kv.1) = [] := by
    rw [List.filter_eq_nil_iff]
    intro kv hkv
    simp [hidx kv hkv]
  have h2 : o.filter (fun kv => !isArrayIndex kv.1) = o := by
    rw [List.filter_eq_self]
    intro kv hkv
    simp [hidx kv hkv]
  simp only [entries, hn, h1, h2]
  rfl

theorem mem_set_self {α : Type} (o : Props α) (k : String) (v : α) : (k, v) ∈ set o k v := by
  unfold set
  split
  · next h =>
    obtain ⟨kv, hkv, hk⟩ := List.any_eq_true.mp h
    have hk' : kv.1 = k := of_decide_eq_true hk
    exact List.mem_map.mpr ⟨kv, hkv, by simp [hk']⟩
  · simp

theorem mem_set_of_ne {α : Type} (o : Props α) (k k' : String) (v v' : α) (hne : k ≠ k')
    (h : (k', v') ∈ o) : (k', v') ∈ set o k v := by
  unfold set
  split
  · exact List.mem_map.mpr ⟨(k', v'), h, by simp [Ne.symm hne]⟩
  · simp [h]

theorem mem_assign_of_mem {α : Type} (src acc : Props α) (k : String) (v : α)
    (hsrc : get src k = none) (h : (k, v) ∈ acc) : (k, v) ∈ assign acc src := by
  induction src generalizing acc with
  | nil => simpa [assign] using h
  | cons kv rest ih =>
    obtain ⟨k1, v1⟩ := kv
    rw [get_cons] at hsrc
    cases hr : get rest k with
    | some w => simp [hr] at hsrc
    | none =>
      have hne : k1 ≠ k := by
        intro he
        simp [hr, he] at hsrc
      rw [assign_cons]
      exact ih (set acc k1 v1) hr (mem_set_of_ne acc k1 k v1 v hne h)

theorem mem_assign_of_get {α : Type} (src acc : Props α) (k : String) (v : α)
    (h : get src k = some v) : (k, v) ∈ assign acc src := by
  induction src generalizing acc with
  | nil => simp [get] at h
  | cons kv rest ih =>
    obtain ⟨k1, v1⟩ := kv
    rw [assign_cons]
    rw [get_cons] at h
    cases hr : get rest k with
    | some w =>
      have hw : w = v := by simpa [hr] using h
      subst hw
      exact ih (set acc k1 v1) hr
    | none =>
      have hk : k1 = k ∧ v1 = v := by
        by_cases he : k1 = k
        · simpa [hr, he] using h
        · simp [hr, he] at h
      obtain ⟨hk1, hv1⟩ := hk
      subst hk1 hv1
      exact mem_assign_of_mem rest _ k1 v1 hr (mem_set_self acc k1 v1)

theorem mem_insertIndexed {α : Type} (kv x : String × α) (o : Props α) :
    x ∈ insertIndexed kv o ↔ x = kv ∨ x ∈ o := by
  induction o with
  | nil => simp [insertIndexed]
  | cons y rest ih =>
    unfold insertIndexed
    split
    · simp
    · simp only [List.mem_cons, ih]
      tauto

theorem mem_sortIndexed {α : Type} (x : String × α) (o : Props α) :
    x ∈ sortIndexed o ↔ x ∈ o := by
  induction o with
  | nil => simp [sortIndexed]
  | cons y rest ih =>
    have hs : sortIndexed (y :: rest) = insertIndexed y (sortIndexed rest) := rfl
    rw [hs, mem_insertIndexed, ih]
    simp

theorem mem_entries_of_get {α : Type} (o : Props α) (k : String) (v : α)
    (h : get o k = some v) : (k, v) ∈ entries o := by
  have hm : (k, v) ∈ assign [] o := mem_assign_of_get o [] k v h
  unfold entries
  simp only [List.mem_append, mem_sortIndexed, List.mem_filter]
  cases hi : isArrayIndex k
  · right; exact ⟨hm, by simp [hi]⟩
  · left; exact ⟨hm, by simp [hi]⟩

end Props

/-! ## Lemmas on the request gateway -/

theorem withDefault_obj (fields : Props JsVal) (d : JsVal) :
    (JsVal.obj fields).withDefault d = .obj fields := rfl

theorem request_ok_resolved (api : ApiService) (net : Backend) (w w1 : World) (endpoint : String)
    (options : Options) (data : JsVal) (h : api.request net w endpoint options = (.ok data, w1)) :
    ∃ req r, net req = .resolved r ∧ r.body = .ok data ∧ r.ok = true := by
  unfold ApiService.request at h
  refine ⟨api.requestConfig w endpoint options, ?_⟩
  cases hn : net (api.requestConfig w endpoint options) with
  | rejected m => simp [hn] at h
  | resolved r =>
    refine ⟨r, rfl, ?_⟩
    cases hb : r.body with
    | error m => simp [hn, hb] at h
    | ok d =>
      cases hok : r.ok with
      | false =>
        simp only [hn, hb, hok] at h
        cases hm : d.readProp "message" with
        | error m => simp [hm] at h
        | ok msg => cases ht : msg.truthy <;> simp [hm, ht] at h
      | true =>
        simp [hn, hb, hok] at h
        exact ⟨by rw [h.1], rfl⟩


theorem request_world (api : ApiService) (net : Backend) (w : World) (endpoint : String)
    (options : Options) :
    (api.request net w endpoint options).2
      = { w with sent := w.sent ++ [api.requestConfig w endpoint options] } := by
  unfold ApiService.request
  cases hn : net (api.requestConfig w endpoint options) with
  | rejected m => simp [hn]
  | resolved r =>
    cases hb : r.body with
    | error m => simp [hn, hb]
    | ok d =>
      cases hok : r.ok with
      | false =>
        cases hm : d.readProp "message" with
        | error m => simp [hn, hb, hok, hm]
        | ok msg => cases ht : msg.truthy <;> simp [hn, hb, hok, hm, ht]
      | true => simp [hn, hb, hok]

theorem getAuthToken_setAuthToken (w : World) (token : JsVal) (hw : w.hasWindow = true) :
    ApiService.getAuthToken (ApiService.setAuthToken w token) = some token.toStr := by
  simp [ApiService.getAuthToken, ApiService.setAuthToken, hw, Props.get_set_self]

theorem getAuthToken_removeAuthToken (w : World) :
    ApiService.getAuthToken (ApiService.removeAuthToken w) = none := by
  cases hw : w.hasWindow <;>
    simp [ApiService.getAuthToken, ApiService.removeAuthToken, hw, Props.get_remove]

theorem removeAuthToken_sent (w : World) : (ApiService.removeAuthToken w).sent = w.sent := by
  cases hw : w.hasWindow <;> simp [ApiService.removeAuthToken, hw]

theorem get_noParams (api : ApiService) (net : Backend) (w : World) (endpoint : String) :
    api.get net w endpoint [] = api.request net w endpoint { method := some "GET" } := by
  have h : URLSearchParams.toString ([] : Props JsVal) = "" := rfl
  have he : Props.entries ([] : Props JsVal) = [] := rfl
  have ha : URLSearchParams.accepts [] = true := rfl
  simp [ApiService.get, h, he, ha]

theorem login_world (api : ApiService) (net : Backend) (w w1 : World) (credentials : JsVal)
    (response token : JsVal) (h : api.login net w credentials = (.ok response, w1))
    (ht : response.readProp "token" = .ok token) :
    w1 = (if token.truthy = true
      then ApiService.setAuthToken (api.post net w "/auth/login" credentials).2 token
      else (api.post net w "/auth/login" credentials).2) := by
  unfold ApiService.login at h
  cases hp : api.post net w "/auth/login" credentials with
  | mk res w2 =>
    cases res with
    | error m => simp [hp] at h
    | ok data =>
      simp only [hp] at h
      cases hd : data.readProp "token" with
      | error m => simp [hd] at h
      | ok tok =>
        cases htr : tok.truthy
        · simp [hd, htr] at h
          obtain ⟨h1, h2⟩ := h
          subst h1
          rw [ht] at hd
          cases hd
          simp [htr, h2]
        · cases hth : ApiService.setAuthTokenThrows w2 tok
          · simp [hd, htr, hth] at h
            obtain ⟨h1, h2⟩ := h
            subst h1
            rw [ht] at hd
            cases hd
            simp [htr, h2]
          · simp [hd, htr, hth] at h

theorem register_world (api : ApiService) (net : Backend) (w w1 : World) (userData : JsVal)
    (response token : JsVal) (h : api.register net w userData = (.ok response, w1))
    (ht : response.readProp "token" = .ok token) :
    w1 = (if token.truthy = true
      then ApiService.setAuthToken (api.post net w "/auth/register" userData).2 token
      else (api.post net w "/auth/register" userData).2) := by
  unfold ApiService.register at h
  cases hp : api.post net w "/auth/register" userData with
  | mk res w2 =>
    cases res with
    | error m => simp [hp] at h
    | ok data =>
      simp only [hp] at h
      cases hd : data.readProp "token" with
      | error m => simp [hd] at h
      | ok tok =>
        cases htr : tok.truthy
        · simp [hd, htr] at h
          obtain ⟨h1, h2⟩ := h
          subst h1
          rw [ht] at hd
          cases hd
          simp [htr, h2]
        · cases hth : ApiService.setAuthTokenThrows w2 tok
          · simp [hd, htr, hth] at h
            obtain ⟨h1, h2⟩ := h
            subst h1
            rw [ht] at hd
            cases hd
            simp [htr, h2]
          · simp [hd, htr, hth] at h

theorem login_stores (api : ApiService) (net : Backend) (w w1 : World) (credentials : JsVal)
    (response token : JsVal) (h : api.login net w credentials = (.ok response, w1))
    (ht : response.readProp "token" = .ok token) (htr : token.truthy = true) :
    ApiService.setAuthTokenThrows (api.post net w "/auth/login" credentials).2 token = false := by
  unfold ApiService.login at h
  cases hp : api.post net w "/auth/login" credentials with
  | mk res w2 =>
    cases res with
    | error m => simp [hp] at h
    | ok data =>
      simp only [hp] at h
      cases hd : data.readProp "token" with
      | error m => simp [hd] at h
      | ok tok =>
        cases htk : tok.truthy
        · simp [hd, htk] at h
          obtain ⟨h1, _⟩ := h
          subst h1
          rw [ht] at hd
          cases hd
          rw [htr] at htk
          cases htk
        · cases hth : ApiService.setAuthTokenThrows w2 tok
          · simp [hd, htk, hth] at h
            obtain ⟨h1, _⟩ := h
            subst h1
            rw [ht] at hd
            cases hd
            exact hth
          · simp [hd, htk, hth] at h

theorem register_stores (api : ApiService) (net : Backend) (w w1 : World) (userData : JsVal)
    (response token : JsVal) (h : api.register net w userData = (.ok response, w1))
    (ht : response.readProp "token" = .ok token) (htr : token.truthy = true) :
    ApiService.setAuthTokenThrows (api.post net w "/auth/register" userData).2 token = false := by
  unfold ApiService.register at h
  cases hp : api.post net w "/auth/register" userData with
  | mk res w2 =>
    cases res with
    | error m => simp [hp] at h
    | ok data =>
      simp only [hp] at h
      cases hd : data.readProp "token" with
      | error m => simp [hd] at h
      | ok tok =>
        cases htk : tok.truthy
        · simp [hd, htk] at h
          obtain ⟨h1, _⟩ := h
          subst h1
          rw [ht] at hd
          cases hd
          rw [htr] at htk
          cases htk
        · cases hth : ApiService.setAuthTokenThrows w2 tok
          · simp [hd, htk, hth] at h
            obtain ⟨h1, _⟩ := h
            subst h1
            rw [ht] at hd
            cases hd
            exact hth
          · simp [hd, htk, hth] at h

theorem post_world (api : ApiService) (net : Backend) (w : World) (endpoint : String)
    (data : JsVal) :
    (api.post net w endpoint data).2.hasWindow = w.hasWindow
      ∧ (api.post net w endpoint data).2.localStorage = w.localStorage := by
  simp [ApiService.post, request_world]

theorem login_ok_resolved (api : ApiService) (net : Backend) (w w1 : World) (credentials : JsVal)
    (response : JsVal) (h : api.login net w credentials = (.ok response, w1)) :
    ∃ req r, net req = .resolved r ∧ r.body = .ok response ∧ r.ok = true := by
  unfold ApiService.login ApiService.post at h
  cases hp : api.request net w "/auth/login"
    { method := some "POST", body := some (credentials.withDefault (.obj [])) } with
  | mk res w2 =>
    cases res with
    | error m => simp [hp] at h
    | ok data =>
      simp only [hp] at h
      cases ht : data.readProp "token" with
      | error m => simp [ht] at h
      | ok token =>
        have hd : data = response := by
          cases htr : token.truthy
          · simp [ht, htr] at h
            exact h.1
          · cases hth : ApiService.setAuthTokenThrows w2 token
            · simp [ht, htr, hth] at h
              exact h.1
            · simp [ht, htr, hth] at h
        subst hd
        exact request_ok_resolved api net w w2 _ _ data hp

theorem register_ok_resolved (api : ApiService) (net : Backend) (w w1 : World) (userData : JsVal)
    (response : JsVal) (h : api.register net w userData = (.ok response, w1)) :
    ∃ req r, net req = .resolved r ∧ r.body = .ok response ∧ r.ok = true := by
  unfold ApiService.register ApiService.post at h
  cases hp : api.request net w "/auth/register"
    { method := some "POST", body := some (userData.withDefault (.obj [])) } with
  | mk res w2 =>
    cases res with
    | error m => simp [hp] at h
    | ok data =>
      simp only [hp] at h
      cases ht : data.readProp "token" with
      | error m => simp [ht] at h
      | ok token =>
        have hd : data = response := by
          cases htr : token.truthy
          · simp [ht, htr] at h
            exact h.1
          · cases hth : ApiService.setAuthTokenThrows w2 token
            · simp [ht, htr, hth] at h
              exact h.1
            · simp [ht, htr, hth] at h
        subst hd
        exact request_ok_resolved api net w w2 _ _ data hp

theorem readProp_field (v x : JsVal) (k : String) (h : v.readProp k = .ok x) :
    v.field k = x := by
  simp [JsVal.field, h]

theorem readProp_ok_of_ok (v x : JsVal) (k k' : String) (h : v.readProp k = .ok x) :
    v.readProp k' = .ok (v.field k') := by
  cases v <;> simp [JsVal.readProp, JsVal.field] at h ⊢

theorem login_ok_token (api : ApiService) (net : Backend) (w w1 : World) (credentials : JsVal)
    (response : JsVal) (h : api.login net w credentials = (.ok response, w1)) :
    response.readProp "token" = .ok (response.field "token") := by
  unfold ApiService.login at h
  cases hp : api.post net w "/auth/login" credentials with
  | mk res w2 =>
    cases res with
    | error m => simp [hp] at h
    | ok data =>
      simp only [hp] at h
      cases hd : data.readProp "token" with
      | error m => simp [hd] at h
      | ok tok =>
        have he : data = response := by
          cases htr : tok.truthy
          · simp [hd, htr] at h
            exact h.1
          · cases hth : ApiService.setAuthTokenThrows w2 tok
            · simp [hd, htr, hth] at h
              exact h.1
            · simp [hd, htr, hth] at h
        subst he
        exact readProp_ok_of_ok data tok "token" "token" hd

theorem login_error_world (api : ApiService) (net : Backend) (w : World) (credentials : JsVal)
    (m : String) (h : (api.login net w credentials).1 = .error m) :
    (api.login net w credentials).2 = (api.post net w "/auth/login" credentials).2 := by
  unfold ApiService.login at h ⊢
  cases hp : api.post net w "/auth/login" credentials with
  | mk res w2 =>
    cases res with
    | error m1 => simp
    | ok data =>
      simp only [hp] at h
      cases hd : data.readProp "token" with
      | error m1 => simp [hd]
      | ok tok =>
        cases htr : tok.truthy
        · simp [hd, htr] at h
        · cases hth : ApiService.setAuthTokenThrows w2 tok
          · simp [hd, htr, hth] at h
          · simp [hd, htr, hth]

theorem request_const_fst (api : ApiService) (o : FetchOutcome) (w w' : World)
    (e e' : String) (opts opts' : Options) :
    (api.request (fun _ => o) w e opts).1 = (api.request (fun _ => o) w' e' opts').1 := by
  unfold ApiService.request
  cases o with
  | rejected m => rfl
  | resolved r =>
    cases hb : r.body with
    | error m => simp [hb]
    | ok d =>
      cases hok : r.ok with
      | false =>
        cases hm : d.readProp "message" with
        | error m => simp [hb, hok, hm]
        | ok msg => cases ht : msg.truthy <;> simp [hb, hok, hm, ht]
      | true => simp [hb, hok]

theorem register_eq_login_const (api : ApiService) (o : FetchOutcome) (w : World)
    (data : JsVal) :
    (api.register (fun _ => o) w data).1 = (api.login (fun _ => o) w data).1
    ∧ (api.register (fun _ => o) w data).2.localStorage
        = (api.login (fun _ => o) w data).2.localStorage
    ∧ (api.register (fun _ => o) w data).2.hasWindow
        = (api.login (fun _ => o) w data).2.hasWindow
    ∧ (api.login (fun _ => o) w data).2.sent
        = w.sent ++ [api.requestConfig w "/auth/login"
            { method := some "POST", body := some (data.withDefault (.obj [])) }]
    ∧ (api.register (fun _ => o) w data).2.sent
        = w.sent ++ [api.requestConfig w "/auth/register"
            { method := some "POST", body := some (data.withDefault (.obj [])) }] := by
  have h1 : (api.post (fun _ => o) w "/auth/register" data).1
      = (api.post (fun _ => o) w "/auth/login" data).1 :=
    request_const_fst api o w w _ _ _ _
  have hwl := request_world api (fun _ => o) w "/auth/login"
    { method := some "POST", body := some (data.withDefault (.obj [])) }
  have hwr := request_world api (fun _ => o) w "/auth/register"
    { method := some "POST", body := some (data.withDefault (.obj [])) }
  unfold ApiService.register ApiService.login
  cases hl : api.post (fun _ => o) w "/auth/login" data with
  | mk resl wl =>
    cases hr : api.post (fun _ => o) w "/auth/register" data with
    | mk resr wr =>
      rw [hl, hr] at h1
      simp only at h1
      subst h1
      have hwr' : wr = { w with sent := w.sent ++ [api.requestConfig w "/auth/register"
          { method := some "POST", body := some (data.withDefault (.obj [])) }] } := by
        have := hwr
        unfold ApiService.post at hr
        rw [hr] at this
        exact this
      have hwl'' : wl = { w with sent := w.sent ++ [api.requestConfig w "/auth/login"
          { method := some "POST", body := some (data.withDefault (.obj [])) }] } := by
        have := hwl
        unfold ApiService.post at hl
        rw [hl] at this
        exact this
      subst hwr' hwl''
      cases resr with
      | error m => simp
      | ok response =>
        cases ht : response.readProp "token" with
        | error m => simp [ht]
        | ok token =>
          cases htr : token.truthy <;> cases hwin : w.hasWindow <;>
            cases hc : token.convertible <;>
            simp [ApiService.setAuthToken, ApiService.setAuthTokenThrows, ht, htr, hwin, hc]

/-! ## Lemmas on query strings -/

theorem encode_plain (s : String) (h : plainText s = true) : URLSearchParams.encode s = s := by
  have hc : ∀ c : Char, plainChar c = true → URLSearchParams.encodeChar c = String.singleton c := by
    intro c hp
    have hsp : c ≠ ' ' := by
      intro he
      rw [he] at hp
      revert hp
      decide
    unfold URLSearchParams.encodeChar
    rw [if_neg hsp]
    unfold plainChar at hp
    rw [if_pos hp]
  have hd : ∀ cs : List Char, cs.all plainChar = true →
      ((cs.map URLSearchParams.encodeChar).map String.data).flatten = cs := by
    intro cs
    induction cs with
    | nil => simp
    | cons c rest ih =>
      intro hall
      simp only [List.all_cons, Bool.and_eq_true] at hall
      simp only [List.map_cons, List.flatten_cons, hc c hall.1, ih hall.2]
      rfl
  apply String.ext
  unfold URLSearchParams.encode
  rw [String.data_join]
  exact hd s.data h

theorem intercalate_go_length (acc sep : String) (l : List String) :
    acc.length ≤ (String.intercalate.go acc sep l).length := by
  induction l generalizing acc with
  | nil => simp [String.intercalate.go]
  | cons a rest ih =>
    have h := ih (acc ++ sep ++ a)
    simp only [String.intercalate.go]
    simp only [String.length_append] at h
    omega

theorem intercalate_ne_empty (sep a : String) (l : List String) (ha : a ≠ "") :
    String.intercalate sep (a :: l) ≠ "" := by
  intro h
  have h1 := intercalate_go_length a sep l
  have h2 : (String.intercalate sep (a :: l)).length = 0 := by rw [h]; rfl
  have h3 : a.length = 0 := by
    simp only [String.intercalate] at h2
    omega
  have h4 : a.data = [] := List.length_eq_zero.mp h3
  exact ha (String.ext h4)

theorem item_ne_empty (a b : String) : a ++ "=" ++ b ≠ "" := by
  intro h
  have h1 : (a ++ "=" ++ b).length = 0 := by rw [h]; rfl
  simp only [String.length_append] at h1
  have h2 : ("=" : String).length = 1 := rfl
  omega

theorem toString_ne_empty (params : Props JsVal) (h : params ≠ []) :
    URLSearchParams.toString params ≠ "" := by
  cases params with
  | nil => exact absurd rfl h
  | cons kv rest =>
    unfold URLSearchParams.toString
    rw [List.map_cons]
    exact intercalate_ne_empty _ _ _ (item_ne_empty _ _)

theorem requestedUrl_eq (api : ApiService) (net : Backend) (w : World) (endpoint : String)
    (params : Props JsVal) (hconv : URLSearchParams.accepts params = true) :
    requestedUrl api net w endpoint params
      = some (api.baseURL ++
          (if URLSearchParams.toString (Props.entries params) ≠ ""
            then endpoint ++ "?" ++ URLSearchParams.toString (Props.entries params)
            else endpoint)) := by
  simp only [requestedUrl, ApiService.get, hconv, if_true]
  simp [request_world, ApiService.requestConfig]

theorem requestedUrl_none (api : ApiService) (net : Backend) (w : World) (endpoint : String)
    (params : Props JsVal) (hconv : URLSearchParams.accepts params = false) :
    requestedUrl api net w endpoint params = none
    ∧ api.get net w endpoint params = (.error JsVal.conversionError, w) := by
  simp [requestedUrl, ApiService.get, hconv]

/-! ## Lemmas on the Session invariant -/

theorem invariant_dispatch_plain (m : Machine) (a : AuthAction)
    (hs : sessionInvariant m.session = true)
    (ha : a = .LOGIN_START ∨ a = .LOAD_USER_START ∨ a = .CLEAR_ERROR ∨ a = .LOGOUT
      ∨ (∃ e, a = .LOGIN_FAILURE e) ∨ (∃ e, a = .LOAD_USER_FAILURE e)) :
    sessionInvariant (m.dispatch a).session = true := by
  rcases ha with h | h | h | h | ⟨e, h⟩ | ⟨e, h⟩ <;> subst h <;>
    first
    | exact hs
    | rfl

theorem invariant_dispatch_user (m : Machine) (user : JsVal) (hp : user.isPresent = true) :
    sessionInvariant (m.dispatch (.LOGIN_SUCCESS user)).session = true
    ∧ sessionInvariant (m.dispatch (.LOAD_USER_SUCCESS user)).session = true := by
  simp [Machine.dispatch, authReducer, sessionInvariant, hp]

theorem invariant_dispatch_update (m : Machine) (user : JsVal)
    (hs : m.session.isAuthenticated = true) :
    sessionInvariant (m.dispatch (.UPDATE_USER user)).session = true := by
  simp [Machine.dispatch, authReducer, sessionInvariant, JsVal.spread2, JsVal.isPresent, hs]

theorem invariant_call (api : ApiService) (op : Op) (m : Machine)
    (hs : sessionInvariant m.session = true) :
    sessionInvariant (m.call api op).session = true := by
  cases op with
  | loadUser =>
    unfold Machine.call
    simp only
    split
    · exact invariant_dispatch_plain m _ hs (Or.inr (Or.inr (Or.inr (Or.inr (Or.inr ⟨_, rfl⟩)))))
    · exact invariant_dispatch_plain m _ hs (Or.inr (Or.inl rfl))
  | login c => exact invariant_dispatch_plain m _ hs (Or.inl rfl)
  | register d => exact invariant_dispatch_plain m _ hs (Or.inl rfl)
  | logout => exact hs
  | updateProfile d => exact hs
  | clearError => exact invariant_dispatch_plain m _ hs (Or.inr (Or.inr (Or.inl rfl)))

theorem invariant_resumeLogin (o : FetchOutcome) (m : Machine)
    (h : ∀ response user, ApiService.settle o = .ok response →
      response.readProp "user" = .ok user →
      (user.isPresent || ApiService.storeThrows m.world response) = true) :
    sessionInvariant (Machine.resumeLogin o m).session = true := by
  unfold Machine.resumeLogin
  cases hset : ApiService.settle o with
  | error e => rfl
  | ok response =>
    dsimp only
    cases ht : response.readProp "token" with
    | error e => rfl
    | ok token =>
      dsimp only
      cases hthrow : (token.truthy && ApiService.setAuthTokenThrows m.world token) with
      | true => rfl
      | false =>
        rw [if_neg (by simp)]
        cases hu : response.readProp "user" with
        | error e => rfl
        | ok user =>
          dsimp only
          have hp : user.isPresent = true := by
            have h1 := h response user hset hu
            have htf := readProp_field response token "token" ht
            simpa [ApiService.storeThrows, htf, hthrow] using h1
          cases response.readProp "message" with
          | error e => rfl
          | ok message =>
            dsimp only
            simp [Machine.dispatch, authReducer, sessionInvariant, hp]

theorem invariant_resumeLoadUser (o : FetchOutcome) (m : Machine)
    (h : ∀ response user, ApiService.settle o = .ok response →
      response.readProp "user" = .ok user → user.isPresent = true) :
    sessionInvariant (Machine.resumeLoadUser o m).session = true := by
  unfold Machine.resumeLoadUser
  cases hset : ApiService.settle o with
  | error e => rfl
  | ok response =>
    dsimp only
    cases hu : response.readProp "user" with
    | error e => rfl
    | ok user =>
      dsimp only
      have hp := h response user hset hu
      simp [Machine.dispatch, authReducer, sessionInvariant, hp]

theorem invariant_resumeUpdateProfile (o : FetchOutcome) (m : Machine)
    (hs : sessionInvariant m.session = true)
    (h : ∀ response user, ApiService.settle o = .ok response →
      response.readProp "user" = .ok user → m.session.isAuthenticated = true) :
    sessionInvariant (Machine.resumeUpdateProfile o m).session = true := by
  unfold Machine.resumeUpdateProfile
  cases hset : ApiService.settle o with
  | error e => exact hs
  | ok response =>
    dsimp only
    cases hu : response.readProp "user" with
    | error e => exact hs
    | ok user => exact invariant_dispatch_update m user (h response user hset hu)

theorem invariant_resume (i : Nat) (o : FetchOutcome) (m : Machine)
    (hs : sessionInvariant m.session = true) (ha : m.admits (.resume i o) = true) :
    sessionInvariant (m.resume i o).session = true := by
  unfold Machine.resume
  cases hi : m.suspended[i]? with
  | none => exact hs
  | some op =>
    simp only [Machine.admits, hi] at ha
    dsimp only
    cases op with
    | login =>
      apply invariant_resumeLogin
      intro response user hset hu
      simpa [hset, hu] using ha
    | register =>
      apply invariant_resumeLogin
      intro response user hset hu
      simpa [hset, hu] using ha
    | loadUser =>
      apply invariant_resumeLoadUser
      intro response user hset hu
      simpa [hset, hu] using ha
    | logout => rfl
    | updateProfile =>
      refine invariant_resumeUpdateProfile o { m with suspended := m.suspended.eraseIdx i } hs ?_
      intro response user hset hu
      simpa [hset, hu] using ha

theorem invariant_run (api : ApiService) (events : List Event) (m : Machine)
    (hs : sessionInvariant m.session = true) (ha : Machine.Admissible api events m) :
    sessionInvariant (Machine.run api events m).session = true := by
  induction events generalizing m with
  | nil => exact hs
  | cons e rest ih =>
    obtain ⟨h1, h2⟩ := ha
    apply ih _ _ h2
    cases e with
    | call op => exact invariant_call api op m hs
    | resume i o => exact invariant_resume i o m hs h1

theorem violation_resumeLogin (o : FetchOutcome) (m : Machine) (response user : JsVal)
    (hset : ApiService.settle o = .ok response) (hu : response.readProp "user" = .ok user)
    (hp : (user.isPresent || ApiService.storeThrows m.world response) = false) :
    sessionInvariant (Machine.resumeLogin o m).session = false := by
  have ht := readProp_ok_of_ok response user "user" "token" hu
  have hm := readProp_ok_of_ok response user "user" "message" hu
  simp only [Bool.or_eq_false_iff] at hp
  obtain ⟨hp1, hp2⟩ := hp
  have hthrow : ((response.field "token").truthy
      && ApiService.setAuthTokenThrows m.world (response.field "token")) = false := hp2
  unfold Machine.resumeLogin
  simp only [hset, ht, hu, hm, hthrow]
  simp [Machine.dispatch, authReducer, sessionInvariant, hp1]

theorem violation_resumeLoadUser (o : FetchOutcome) (m : Machine) (response user : JsVal)
    (hset : ApiService.settle o = .ok response) (hu : response.readProp "user" = .ok user)
    (hp : user.isPresent = false) :
    sessionInvariant (Machine.resumeLoadUser o m).session = false := by
  unfold Machine.resumeLoadUser
  simp only [hset, hu]
  simp [Machine.dispatch, authReducer, sessionInvariant, hp]

theorem violation_resumeUpdateProfile (o : FetchOutcome) (m : Machine) (response user : JsVal)
    (hset : ApiService.settle o = .ok response) (hu : response.readProp "user" = .ok user)
    (ha : m.session.isAuthenticated = false) :
    sessionInvariant (Machine.resumeUpdateProfile o m).session = false := by
  unfold Machine.resumeUpdateProfile
  simp only [hset, hu]
  simp [Machine.dispatch, authReducer, sessionInvariant, JsVal.spread2, JsVal.isPresent, ha]

theorem violation_step (api : ApiService) (m : Machine) (e : Event)
    (h : m.admits e = false) : sessionInvariant (m.step api e).session = false := by
  cases e with
  | call op => cases h
  | resume i o =>
    simp only [Machine.admits] at h
    simp only [Machine.step, Machine.resume]
    cases hi : m.suspended[i]? with
    | none => simp [hi] at h
    | some op =>
      cases hset : ApiService.settle o with
      | error e => simp [hi, hset] at h
      | ok response =>
        cases hu : response.readProp "user" with
        | error e => simp [hi, hset, hu] at h
        | ok user =>
          simp only [hi, hset, hu] at h
          cases op with
          | login => exact violation_resumeLogin o _ response user hset hu h
          | register => exact violation_resumeLogin o _ response user hset hu h
          | loadUser => exact violation_resumeLoadUser o _ response user hset hu h
          | logout => cases h
          | updateProfile => exact violation_resumeUpdateProfile o _ response user hset hu h

/-! ## C1: the Session invariant -/

/-- C1, counterexample: the invariant fails in reachable states.  After `staleTokenRun` the
Session has a present user while `isAuthenticated` is false; after a login whose successful
response carries no user, `isAuthenticated` is true while the user is `undefined`; and after
`lateUpdateRun`, in which a profile update completes after a logout, the Session has a present
user while `isAuthenticated` is false. -/
theorem C1_invariant_counterexample :
    (let s := (runOps localApi staleTokenRun (initialState, freshBrowser)).1
     s.isAuthenticated = false ∧ s.user = .obj [("name", .str "Ann")]
       ∧ sessionInvariant s = false)
    ∧ (let s := (runOps localApi
          [(answering 200 (.obj [("token", .str "T1")]), .login sampleCredentials)]
          (initialState, freshBrowser)).1
       s.isAuthenticated = true ∧ s.user = .undefined ∧ sessionInvariant s = false)
    ∧ (let s := (Machine.run localApi lateUpdateRun (Machine.init freshBrowser)).session
       s.isAuthenticated = false ∧ s.user = .obj [("name", .str "Ann")]
         ∧ sessionInvariant s = false) := by
  refine ⟨⟨rfl, rfl, rfl⟩, ⟨rfl, rfl, rfl⟩, ⟨rfl, rfl, rfl⟩⟩

/-- C1, amended: take any finite sequence of calls of `loadUser`, `login`, `register`,
`logout`, `updateProfile` and `clearError` and of completions of their requests, in any
interleaving and under any outcome of each request.  If every response on which `login`,
`register` or `loadUser` succeeds carries a present user, and every response on which
`updateProfile` succeeds arrives while the Session is authenticated, then in the Session
reached from `initialState`, `isAuthenticated` is true exactly when `user` is present.  The
two conditions are needed: in any state of the provider, an event that fails one of them
leaves a Session in which `isAuthenticated` differs from the presence of `user`. -/
theorem C1_invariant_amended (api : ApiService) (w0 : World) (events : List Event)
    (m : Machine) (e : Event) :
    (Machine.Admissible api events (Machine.init w0) →
      (Machine.run api events (Machine.init w0)).session.isAuthenticated
        = (Machine.run api events (Machine.init w0)).session.user.isPresent)
    ∧ (m.admits e = false →
      (m.step api e).session.isAuthenticated ≠ (m.step api e).session.user.isPresent) := by
  constructor
  · intro ha
    have h := invariant_run api events (Machine.init w0) rfl ha
    simpa [sessionInvariant] using h
  · intro ha
    have h := violation_step api m e ha
    simpa [sessionInvariant] using h

/-- C1, witness: `orderlyRun` (a login, a profile update completed while logged in, a login
that the backend rejects with status 401 and a body without user, a logout) keeps the
invariant; and a login in flight that completes with the response `{token: "T1"}`, which has
no user, breaks it. -/
theorem C1_invariant_amended_witness :
    (Machine.Admissible localApi orderlyRun (Machine.init freshBrowser)
      ∧ (Machine.run localApi orderlyRun (Machine.init freshBrowser)).session.isAuthenticated
        = (Machine.run localApi orderlyRun
            (Machine.init freshBrowser)).session.user.isPresent)
    ∧ (loginInFlight.admits (.resume 0 tokenOnly) = false
      ∧ (loginInFlight.step localApi (.resume 0 tokenOnly)).session.isAuthenticated
        ≠ (loginInFlight.step localApi (.resume 0 tokenOnly)).session.user.isPresent) :=
  have hadm : Machine.Admissible localApi orderlyRun (Machine.init freshBrowser) :=
    ⟨rfl, rfl, rfl, rfl, rfl, rfl, rfl, rfl, trivial⟩
  ⟨⟨hadm, (C1_invariant_amended localApi freshBrowser orderlyRun loginInFlight
      (.call .logout)).1 hadm⟩,
   ⟨rfl, (C1_invariant_amended localApi freshBrowser [] loginInFlight
      (.resume 0 tokenOnly)).2 rfl⟩⟩

/-! ## C2: the token of a successful login or registration -/

/-- C2, counterexample: `apiService.login` succeeds on the response `{user: ...}` that carries
no token; `response.token` is `undefined` and the Credential Store still holds the earlier
token `OLD`. -/
theorem C2_token_counterexample :
    (localApi.login (answering 200 (.obj [("user", sampleUser)])) browserWithOldToken
        sampleCredentials).1 = .ok (.obj [("user", sampleUser)])
    ∧ (JsVal.obj [("user", sampleUser)]).readProp "token" = .ok .undefined
    ∧ ApiService.getAuthToken
        (localApi.login (answering 200 (.obj [("user", sampleUser)])) browserWithOldToken
          sampleCredentials).2 = some "OLD" :=
  ⟨rfl, rfl, rfl⟩

/-- C2, amended: for every backend response on which `apiService.login` or
`apiService.register` succeeds, if the token of the response is truthy and `window` is defined
then the string conversion of the token returns and `getAuthToken()` afterwards gives the
string form `String(token)` of that token (the token itself when it is a string), whatever was
stored before; if the token is absent or falsy, the content of the Credential Store is what it
was before the call. -/
theorem C2_token_amended (api : ApiService) (net : Backend) (w w1 : World)
    (data response token : JsVal)
    (h : api.login net w data = (.ok response, w1)
      ∨ api.register net w data = (.ok response, w1))
    (ht : response.readProp "token" = .ok token) :
    (token.truthy = true → w.hasWindow = true →
        token.convertible = true ∧ ApiService.getAuthToken w1 = some token.toStr)
    ∧ (token.truthy = false → w1.localStorage = w.localStorage) := by
  have key : ∃ w2 : World, w2.hasWindow = w.hasWindow ∧ w2.localStorage = w.localStorage
      ∧ w1 = (if token.truthy = true then ApiService.setAuthToken w2 token else w2)
      ∧ (token.truthy = true → ApiService.setAuthTokenThrows w2 token = false) := by
    rcases h with h | h
    · exact ⟨_, (post_world api net w _ data).1, (post_world api net w _ data).2,
        login_world api net w w1 data response token h ht,
        login_stores api net w w1 data response token h ht⟩
    · exact ⟨_, (post_world api net w _ data).1, (post_world api net w _ data).2,
        register_world api net w w1 data response token h ht,
        register_stores api net w w1 data response token h ht⟩
  obtain ⟨w2, hw, hs, h1, h2⟩ := key
  constructor
  · intro htr hwin
    have hw2 : w2.hasWindow = true := by rw [hw]; exact hwin
    refine ⟨?_, ?_⟩
    · have h3 := h2 htr
      simpa [ApiService.setAuthTokenThrows, hw2] using h3
    · rw [h1, if_pos htr]
      exact getAuthToken_setAuthToken w2 token hw2
  · intro htr
    rw [h1]
    simp [htr, hs]

/-- C2, witness: the login of the sample scenario overwrites `OLD` by `T1`; and a login whose
response carries the number `1e21` as token stores its string form `1e+21`. -/
theorem C2_token_amended_witness :
    ApiService.getAuthToken
      (localApi.login (answering 200 loginOk) browserWithOldToken sampleCredentials).2
      = some "T1"
    ∧ ApiService.getAuthToken
      (localApi.login (answering 200 (.obj [("token", .num "1e+21")])) browserWithOldToken
        sampleCredentials).2 = some "1e+21" :=
  ⟨((C2_token_amended localApi (answering 200 loginOk) browserWithOldToken _ sampleCredentials
      loginOk (.str "T1") (Or.inl rfl) rfl).1 rfl rfl).2,
   ((C2_token_amended localApi (answering 200 (.obj [("token", .num "1e+21")]))
      browserWithOldToken _ sampleCredentials (.obj [("token", .num "1e+21")]) (.num "1e+21")
      (Or.inl rfl) rfl).1 rfl rfl).2⟩

/-! ## C3: logout -/

/-- C3: for every Session state and every content of the Credential Store, `logout()` hands no
request to `fetch`, leaves `getAuthToken()` without a token, moves the Session to anonymous
(user `null`, not authenticated, not loading, no error) and returns `{success: true}`. -/
theorem C3_logout (api : ApiService) (s : AuthState) (w : World) :
    (AuthProvider.logout api s w).2.1.sent = w.sent
    ∧ ApiService.getAuthToken (AuthProvider.logout api s w).2.1 = none
    ∧ (AuthProvider.logout api s w).1
        = { user := .null, isAuthenticated := false, isLoading := false, error := none }
    ∧ (AuthProvider.logout api s w).2.2 = { success := true, message := none, error := none } := by
  refine ⟨?_, ?_, ?_, ?_⟩
  · cases hw : w.hasWindow <;>
      simp [AuthProvider.logout, ApiService.logout, ApiService.removeAuthToken, hw]
  · simpa [AuthProvider.logout, ApiService.logout] using getAuthToken_removeAuthToken w
  · simp [AuthProvider.logout, ApiService.logout, authReducer]
  · simp [AuthProvider.logout, ApiService.logout]

/-! ## C4: startup without a token -/

/-- C4, counterexample: on startup with an empty Credential Store the Session ends with the
error `No token found`, not with an absent error. -/
theorem C4_startup_counterexample :
    (AuthProvider.loadUser localApi (answering 200 loginOk) initialState freshBrowser).1.error
      = some "No token found"
    ∧ (AuthProvider.loadUser localApi (answering 200 loginOk) initialState freshBrowser).1.error
      ≠ none :=
  ⟨rfl, fun h => Option.noConfusion h⟩

/-- C4, amended: on startup (`loadUser` run from `initialState`) with no token in the
Credential Store, no request is handed to `fetch` and the Session has user absent,
`isAuthenticated` false, `isLoading` false and the error `No token found`. -/
theorem C4_startup_amended (api : ApiService) (net : Backend) (w : World)
    (h : ApiService.getAuthToken w = none) :
    AuthProvider.loadUser api net initialState w
      = ({ user := .null, isAuthenticated := false, isLoading := false,
           error := some "No token found" }, w) := by
  simp [AuthProvider.loadUser, h, authReducer, initialState]

/-- C4, witness: startup in a browser with an empty `localStorage`. -/
theorem C4_startup_amended_witness :
    ApiService.getAuthToken freshBrowser = none
    ∧ AuthProvider.loadUser localApi (answering 200 loginOk) initialState freshBrowser
      = ({ user := .null, isAuthenticated := false, isLoading := false,
           error := some "No token found" }, freshBrowser) :=
  ⟨rfl, C4_startup_amended localApi (answering 200 loginOk) freshBrowser rfl⟩

/-! ## C5: startup with a token the backend rejects -/

/-- C5: on startup with a token `t` stored, if `getCurrentUser` fails with message `m`, then
after `loadUser` the Session has `isAuthenticated` false, user absent, `isLoading` false and
error `m`, `getAuthToken()` gives no token, and exactly one request was handed to `fetch`: the
`GET` of `/auth/me` carrying the token. -/
theorem C5_invalid_startup_token (api : ApiService) (net : Backend) (s : AuthState) (w : World)
    (t m : String) (ht : ApiService.getAuthToken w = some t) (hne : t ≠ "")
    (hfail : (api.getCurrentUser net w).1 = .error m) :
    (AuthProvider.loadUser api net s w).1
      = { user := .null, isAuthenticated := false, isLoading := false, error := some m }
    ∧ ApiService.getAuthToken (AuthProvider.loadUser api net s w).2 = none
    ∧ (AuthProvider.loadUser api net s w).2.sent
      = w.sent ++
          [{ url := api.baseURL ++ "/auth/me", method := some "GET",
             headers := [("Content-Type", "application/json"),
                         ("Authorization", "Bearer " ++ t)],
             body := none }] := by
  have hw2 : (api.getCurrentUser net w).2
      = { w with sent := w.sent ++ [Request.mk (api.baseURL ++ "/auth/me") (some "GET")
            [("Content-Type", "application/json"), ("Authorization", "Bearer " ++ t)] none] } := by
    simp [ApiService.getCurrentUser, get_noParams, request_world, ApiService.requestConfig,
      ht, hne, Props.set, Props.has, Props.assign]
  cases hg : api.getCurrentUser net w with
  | mk res w1 =>
    rw [hg] at hfail hw2
    simp only at hfail hw2
    subst hfail
    unfold AuthProvider.loadUser
    simp only [ht, hg]
    refine ⟨?_, ?_, ?_⟩
    · simp [hne, authReducer]
    · simp [hne, getAuthToken_removeAuthToken]
    · simp only [hne, or_self, if_false, reduceCtorEq, Option.some.injEq]
      rw [removeAuthToken_sent, hw2]

/-- C5, witness: the stored token `OLD` is rejected with status 401. -/
theorem C5_invalid_startup_token_witness :
    (AuthProvider.loadUser localApi
        (answering 401 (.obj [("message", .str "Token is not valid")]))
        initialState browserWithOldToken).1
      = { user := .null, isAuthenticated := false, isLoading := false,
          error := some "Token is not valid" }
    ∧ ApiService.getAuthToken (AuthProvider.loadUser localApi
        (answering 401 (.obj [("message", .str "Token is not valid")]))
        initialState browserWithOldToken).2 = none
    ∧ (AuthProvider.loadUser localApi
        (answering 401 (.obj [("message", .str "Token is not valid")]))
        initialState browserWithOldToken).2.sent
      = browserWithOldToken.sent ++
          [{ url := localApi.baseURL ++ "/auth/me", method := some "GET",
             headers := [("Content-Type", "application/json"),
                         ("Authorization", "Bearer " ++ "OLD")],
             body := none }] :=
  C5_invalid_startup_token localApi (answering 401 (.obj [("message", .str "Token is not valid")]))
    initialState browserWithOldToken "OLD" "Token is not valid" rfl (by decide) rfl

/-! ## C6: successful login -/

/-- C6: for every prior Session state and every response on which the login request succeeds,
`login(credentials)` leaves the Session equal to `{user: response.user, isAuthenticated: true,
isLoading: false, error: null}` and returns `{success: true, message: response.message}`; and
when the token of the response is a non-empty string and `window` is defined, the Credential
Store holds that token afterwards. -/
theorem C6_login_success (api : ApiService) (net : Backend) (s : AuthState) (w w1 : World)
    (credentials response : JsVal) (h : api.login net w credentials = (.ok response, w1)) :
    AuthProvider.login api net s w credentials
      = ({ user := response.field "user", isAuthenticated := true, isLoading := false,
           error := none },
         w1, { success := true, message := some (response.field "message"), error := none })
    ∧ (∀ t : String, response.field "token" = .str t → t ≠ "" → w.hasWindow = true →
        ApiService.getAuthToken w1 = some t) := by
  have htok := login_ok_token api net w w1 credentials response h
  have hu := readProp_ok_of_ok response _ "token" "user" htok
  have hm := readProp_ok_of_ok response _ "token" "message" htok
  constructor
  · simp [AuthProvider.login, h, hu, hm, authReducer]
  · intro t ht hne hwin
    have h1 := login_world api net w w1 credentials response _ h htok
    have htr : (response.field "token").truthy = true := by simp [ht, JsVal.truthy, hne]
    rw [h1, if_pos htr, ht]
    exact getAuthToken_setAuthToken _ (.str t) (by rw [(post_world api net w _ credentials).1, hwin])

/-- C6, witness: the concrete scenario, a backend returning
`{token: "T1", user: {id: 1, email: "a@b.com"}}`. -/
theorem C6_login_success_witness :
    (AuthProvider.login localApi (answering 200 loginOk) initialState freshBrowser
        sampleCredentials).1
      = { user := sampleUser, isAuthenticated := true, isLoading := false, error := none }
    ∧ ApiService.getAuthToken
        (AuthProvider.login localApi (answering 200 loginOk) initialState freshBrowser
          sampleCredentials).2.1 = some "T1" :=
  ⟨congrArg Prod.fst
      (C6_login_success localApi (answering 200 loginOk) initialState freshBrowser _
        sampleCredentials loginOk rfl).1,
    (C6_login_success localApi (answering 200 loginOk) initialState freshBrowser
      (localApi.login (answering 200 loginOk) freshBrowser sampleCredentials).2
        sampleCredentials loginOk rfl).2 "T1" rfl (by decide) rfl⟩

/-! ## C7: failed login -/

/-- C7: for every prior Session state and content of the Credential Store, if the login
request fails with message `m`, then `login` leaves the Session with error `m`,
`isAuthenticated` false, user absent and `isLoading` false, returns
`{success: false, error: m}`, and leaves the content of the Credential Store as it was. -/
theorem C7_login_failure (api : ApiService) (net : Backend) (s : AuthState) (w : World)
    (credentials : JsVal) (m : String) (h : (api.login net w credentials).1 = .error m) :
    (AuthProvider.login api net s w credentials).1
      = { user := .null, isAuthenticated := false, isLoading := false, error := some m }
    ∧ (AuthProvider.login api net s w credentials).2.2
      = { success := false, message := none, error := some m }
    ∧ (AuthProvider.login api net s w credentials).2.1.localStorage = w.localStorage
    ∧ (AuthProvider.login api net s w credentials).2.1.hasWindow = w.hasWindow := by
  have hw := login_error_world api net w credentials m h
  have hp := post_world api net w "/auth/login" credentials
  rw [← hw] at hp
  cases hl : api.login net w credentials with
  | mk res w1 =>
    rw [hl] at h hp
    simp only at h hp
    subst h
    simp [AuthProvider.login, hl, authReducer, hp]

/-- C7, witness: the backend answers the login with status 401 and
`{message: "invalid credentials"}` while the token `OLD` is stored. -/
theorem C7_login_failure_witness :
    (AuthProvider.login localApi
        (answering 401 (.obj [("message", .str "invalid credentials")]))
        initialState browserWithOldToken sampleCredentials).1
      = { user := .null, isAuthenticated := false, isLoading := false,
          error := some "invalid credentials" }
    ∧ (AuthProvider.login localApi
        (answering 401 (.obj [("message", .str "invalid credentials")]))
        initialState browserWithOldToken sampleCredentials).2.2
      = { success := false, message := none, error := some "invalid credentials" }
    ∧ (AuthProvider.login localApi
        (answering 401 (.obj [("message", .str "invalid credentials")]))
        initialState browserWithOldToken sampleCredentials).2.1.localStorage
      = browserWithOldToken.localStorage
    ∧ (AuthProvider.login localApi
        (answering 401 (.obj [("message", .str "invalid credentials")]))
        initialState browserWithOldToken sampleCredentials).2.1.hasWindow
      = browserWithOldToken.hasWindow :=
  C7_login_failure localApi (answering 401 (.obj [("message", .str "invalid credentials")]))
    initialState browserWithOldToken sampleCredentials "invalid credentials" rfl

/-! ## C8: register has the contract of login -/

/-- C8: for every prior Session state, content of the Credential Store and outcome `o` of
the request, `register(userData)` produces the same Session, the same content of the
Credential Store and the same returned result as `login` does for that outcome; each hands one
request to `fetch`, and the two requests differ only in the path, `/auth/register` instead of
`/auth/login`. -/
theorem C8_register_as_login (api : ApiService) (o : FetchOutcome) (s : AuthState) (w : World)
    (data : JsVal) :
    (AuthProvider.register api (fun _ => o) s w data).1
        = (AuthProvider.login api (fun _ => o) s w data).1
    ∧ (AuthProvider.register api (fun _ => o) s w data).2.2
        = (AuthProvider.login api (fun _ => o) s w data).2.2
    ∧ (AuthProvider.register api (fun _ => o) s w data).2.1.localStorage
        = (AuthProvider.login api (fun _ => o) s w data).2.1.localStorage
    ∧ (AuthProvider.register api (fun _ => o) s w data).2.1.hasWindow
        = (AuthProvider.login api (fun _ => o) s w data).2.1.hasWindow
    ∧ (AuthProvider.login api (fun _ => o) s w data).2.1.sent
        = w.sent ++ [api.requestConfig w "/auth/login"
            { method := some "POST", body := some (data.withDefault (.obj [])) }]
    ∧ (AuthProvider.register api (fun _ => o) s w data).2.1.sent
        = w.sent ++ [api.requestConfig w "/auth/register"
            { method := some "POST", body := some (data.withDefault (.obj [])) }]
    ∧ api.requestConfig w "/auth/register"
          { method := some "POST", body := some (data.withDefault (.obj [])) }
        = { api.requestConfig w "/auth/login"
              { method := some "POST", body := some (data.withDefault (.obj [])) } with
            url := api.baseURL ++ "/auth/register" } := by
  obtain ⟨h1, h2, h3, h4, h5⟩ := register_eq_login_const api o w data
  unfold AuthProvider.register AuthProvider.login
  cases hl : api.login (fun _ => o) w data with
  | mk resl wl =>
    cases hr : api.register (fun _ => o) w data with
    | mk resr wr =>
      rw [hl, hr] at h1 h2 h3
      rw [hl] at h4
      rw [hr] at h5
      simp only at h1 h2 h3 h4 h5
      subst h1
      cases resr with
      | error m => exact ⟨rfl, rfl, h2, h3, h4, h5, rfl⟩
      | ok response =>
        cases hu : response.readProp "user" with
        | error m => exact ⟨by simp [hu], by simp [hu], by simpa [hu] using h2,
            by simpa [hu] using h3, by simpa [hu] using h4, by simpa [hu] using h5, rfl⟩
        | ok user =>
          cases hm : response.readProp "message" <;>
            exact ⟨by simp [hu, hm], by simp [hu, hm], by simpa [hu, hm] using h2,
              by simpa [hu, hm] using h3, by simpa [hu, hm] using h4,
              by simpa [hu, hm] using h5, rfl⟩

/-! ## C9: successful profile update -/

/-- C9: for every Session with a cached user `u` and every response on which the
update-profile request succeeds and which carries the user `r`, the cached user afterwards has,
for each top-level field `k`, the value `r[k]` if `k` is present in `r` and `u[k]` otherwise;
`isAuthenticated`, `isLoading` and `error` are unchanged; and `updateProfile` returns
`{success: true, message: response.message}`. -/
theorem C9_updateProfile_merge (api : ApiService) (net : Backend) (s : AuthState) (w w1 : World)
    (userData response : JsVal) (u r : Props JsVal) (hu : s.user = .obj u)
    (h : api.updateProfile net w userData = (.ok response, w1))
    (hr : response.readProp "user" = .ok (.obj r)) :
    ∃ merged : Props JsVal,
      (AuthProvider.updateProfile api net s w userData).1.user = .obj merged
      ∧ (∀ k : String, merged.get k = (r.get k).orElse (fun _ => u.get k))
      ∧ (AuthProvider.updateProfile api net s w userData).1.isAuthenticated = s.isAuthenticated
      ∧ (AuthProvider.updateProfile api net s w userData).1.isLoading = s.isLoading
      ∧ (AuthProvider.updateProfile api net s w userData).1.error = s.error
      ∧ (AuthProvider.updateProfile api net s w userData).2.2
        = { success := true, message := some (response.field "message"), error := none } := by
  have hm := readProp_ok_of_ok response _ "user" "message" hr
  refine ⟨(Props.assign [] u).assign r, ?_, ?_, ?_, ?_, ?_, ?_⟩
  · simp [AuthProvider.updateProfile, h, hr, hm, authReducer, JsVal.spread2, JsVal.ownProps, hu]
  · intro k
    rw [Props.get_assign, Props.get_assign]
    cases r.get k <;> cases u.get k <;> simp [Props.get]
  · simp [AuthProvider.updateProfile, h, hr, hm, authReducer]
  · simp [AuthProvider.updateProfile, h, hr, hm, authReducer]
  · simp [AuthProvider.updateProfile, h, hr, hm, authReducer]
  · simp [AuthProvider.updateProfile, h, hr, hm]

/-- C9, witness: the cached user `{id: 1, email: "a@b.com"}` merged with the returned
`{email: "c@d.com", name: "Ann"}`. -/
theorem C9_updateProfile_merge_witness :
    ∃ merged : Props JsVal,
      (AuthProvider.updateProfile localApi (answering 200 profileOk) loggedIn freshBrowser
          (.obj [("name", .str "Ann")])).1.user = .obj merged
      ∧ (∀ k : String, merged.get k
          = (Props.get [("email", JsVal.str "c@d.com"), ("name", JsVal.str "Ann")] k).orElse
              (fun _ => Props.get [("id", JsVal.num "1"), ("email", JsVal.str "a@b.com")] k))
      ∧ (AuthProvider.updateProfile localApi (answering 200 profileOk) loggedIn freshBrowser
          (.obj [("name", .str "Ann")])).1.isAuthenticated = loggedIn.isAuthenticated
      ∧ (AuthProvider.updateProfile localApi (answering 200 profileOk) loggedIn freshBrowser
          (.obj [("name", .str "Ann")])).1.isLoading = loggedIn.isLoading
      ∧ (AuthProvider.updateProfile localApi (answering 200 profileOk) loggedIn freshBrowser
          (.obj [("name", .str "Ann")])).1.error = loggedIn.error
      ∧ (AuthProvider.updateProfile localApi (answering 200 profileOk) loggedIn freshBrowser
          (.obj [("name", .str "Ann")])).2.2
        = { success := true, message := some (profileOk.field "message"), error := none } :=
  C9_updateProfile_merge localApi (answering 200 profileOk) loggedIn freshBrowser _
    (.obj [("name", .str "Ann")]) profileOk _ _ rfl rfl rfl

/-! ## C10: failed profile update -/

/-- C10: for every Session state, if the update-profile request fails with message `m`, the
Session after `updateProfile` is exactly the prior Session (no action is dispatched) and the
failure surfaces only as the returned `{success: false, error: m}`. -/
theorem C10_updateProfile_failure (api : ApiService) (net : Backend) (s : AuthState) (w : World)
    (userData : JsVal) (m : String) (h : (api.updateProfile net w userData).1 = .error m) :
    (AuthProvider.updateProfile api net s w userData).1 = s
    ∧ (AuthProvider.updateProfile api net s w userData).2.2
      = { success := false, message := none, error := some m } := by
  cases hl : api.updateProfile net w userData with
  | mk res w1 =>
    rw [hl] at h
    simp only at h
    subst h
    simp [AuthProvider.updateProfile, hl]

/-- C10, witness: the backend rejects the update with status 400 and
`{message: "Email already in use"}`. -/
theorem C10_updateProfile_failure_witness :
    (AuthProvider.updateProfile localApi
        (answering 400 (.obj [("message", .str "Email already in use")])) loggedIn freshBrowser
        (.obj [("email", .str "c@d.com")])).1 = loggedIn
    ∧ (AuthProvider.updateProfile localApi
        (answering 400 (.obj [("message", .str "Email already in use")])) loggedIn freshBrowser
        (.obj [("email", .str "c@d.com")])).2.2
      = { success := false, message := none, error := some "Email already in use" } :=
  C10_updateProfile_failure localApi
    (answering 400 (.obj [("message", .str "Email already in use")])) loggedIn freshBrowser
    (.obj [("email", .str "c@d.com")]) "Email already in use" rfl

/-! ## C11: clearError -/

/-- C11: for every Session state `s`, reachable or not, `authReducer(s, CLEAR_ERROR)` has no
error and the same user, `isAuthenticated` and `isLoading` as `s`; `clearError()` dispatches
exactly that action. -/
theorem C11_clearError (s : AuthState) :
    (authReducer s .CLEAR_ERROR).error = none
    ∧ (authReducer s .CLEAR_ERROR).user = s.user
    ∧ (authReducer s .CLEAR_ERROR).isAuthenticated = s.isAuthenticated
    ∧ (authReducer s .CLEAR_ERROR).isLoading = s.isLoading
    ∧ AuthProvider.clearError s = authReducer s .CLEAR_ERROR :=
  ⟨rfl, rfl, rfl, rfl, rfl⟩

/-! ## C12: query encoding -/

/-- C12, counterexample: a value with a space is not rendered as it is (`search=a b`) but
escaped; and a key that is an array index is requested before the keys supplied ahead of it. -/
theorem C12_query_counterexample :
    requestedUrl localApi (answering 200 .null) freshBrowser "/tasks"
        (stringParams [("search", "a b")])
      = some "http://localhost:5000/api/tasks?search=a+b"
    ∧ requestedUrl localApi (answering 200 .null) freshBrowser "/tasks"
        (stringParams [("status", "pending"), ("1", "x")])
      = some "http://localhost:5000/api/tasks?1=x&status=pending" :=
  ⟨rfl, rfl⟩

/-- C12, amended: for every endpoint and every ordered map of string key/value pairs whose
keys are distinct and none of which is an array index, `get(endpoint, params)` requests
`endpoint` followed by `?` and the pairs rendered as `key=value`, key and value in the
form-urlencoded serialisation, joined by `&` in the order the keys were supplied when the map
is non-empty, and exactly `endpoint` with no `?` when the map is empty; keys and values made
of ASCII letters, digits and `*-._` are rendered as they are. -/
theorem C12_query_amended (api : ApiService) (net : Backend) (w : World) (endpoint : String)
    (pairs : Props String) (hnd : (pairs.map Prod.fst).Nodup)
    (hidx : ∀ kv ∈ pairs, Props.isArrayIndex kv.1 = false) :
    requestedUrl api net w endpoint (stringParams pairs)
      = some (api.baseURL ++
          (if pairs = [] then endpoint
           else endpoint ++ "?" ++ String.intercalate "&"
             (pairs.map (fun kv =>
               URLSearchParams.encode kv.1 ++ "=" ++ URLSearchParams.encode kv.2))))
    ∧ ((∀ kv ∈ pairs, plainText kv.1 = true ∧ plainText kv.2 = true) →
        requestedUrl api net w endpoint (stringParams pairs)
          = some (api.baseURL ++
              (if pairs = [] then endpoint
               else endpoint ++ "?" ++ String.intercalate "&"
                 (pairs.map (fun kv => kv.1 ++ "=" ++ kv.2))))) := by
  have hent : Props.entries (stringParams pairs) = stringParams pairs := by
    apply Props.entries_eq_self
    · simpa [stringParams, List.map_map, Function.comp_def] using hnd
    · intro kv hkv
      obtain ⟨p, hp, rfl⟩ := List.mem_map.mp hkv
      exact hidx p hp
  have hqs : URLSearchParams.toString (stringParams pairs)
      = String.intercalate "&" (pairs.map (fun kv =>
          URLSearchParams.encode kv.1 ++ "=" ++ URLSearchParams.encode kv.2)) := by
    simp [URLSearchParams.toString, stringParams, List.map_map, Function.comp_def, JsVal.toStr]
  have hacc : URLSearchParams.accepts (stringParams pairs) = true := by
    unfold URLSearchParams.accepts
    rw [hent]
    apply List.all_eq_true.mpr
    intro kv hkv
    obtain ⟨q, _, rfl⟩ := List.mem_map.mp hkv
    rfl
  have hmain : requestedUrl api net w endpoint (stringParams pairs)
      = some (api.baseURL ++
          (if pairs = [] then endpoint
           else endpoint ++ "?" ++ String.intercalate "&"
             (pairs.map (fun kv =>
               URLSearchParams.encode kv.1 ++ "=" ++ URLSearchParams.encode kv.2)))) := by
    rw [requestedUrl_eq _ _ _ _ _ hacc, hent]
    by_cases he : pairs = []
    · subst he
      rfl
    · have hne : stringParams pairs ≠ [] := by
        simpa [stringParams] using he
      rw [if_pos (toString_ne_empty _ hne), if_neg he, hqs]
  refine ⟨hmain, ?_⟩
  intro hplain
  rw [hmain]
  have hmap : pairs.map (fun kv =>
      URLSearchParams.encode kv.1 ++ "=" ++ URLSearchParams.encode kv.2)
      = pairs.map (fun kv => kv.1 ++ "=" ++ kv.2) := by
    apply List.map_congr_left
    intro kv hkv
    rw [encode_plain _ (hplain kv hkv).1, encode_plain _ (hplain kv hkv).2]
  rw [hmap]

/-- C12, witness: `get('/tasks', {status: 'pending', priority: 'high'})` requests
`/tasks?status=pending&priority=high`. -/
theorem C12_query_amended_witness :
    requestedUrl localApi (answering 200 .null) freshBrowser "/tasks"
        (stringParams [("status", "pending"), ("priority", "high")])
      = some "http://localhost:5000/api/tasks?status=pending&priority=high" :=
  (C12_query_amended localApi (answering 200 .null) freshBrowser "/tasks"
    [("status", "pending"), ("priority", "high")] (by decide) (by decide)).2 (by decide)

/-! ## C13: undefined values in the query -/

/-- C13, counterexample: `get('/tasks', {status: undefined})` requests
`/tasks?status=undefined`: the key appears, and the endpoint is not bare. -/
theorem C13_undefined_counterexample :
    requestedUrl localApi (answering 200 .null) freshBrowser "/tasks" [("status", .undefined)]
      = some "http://localhost:5000/api/tasks?status=undefined" :=
  rfl

/-- C13, amended: for every params map passed to `get` that `URLSearchParams` accepts, a key
whose value is `undefined` appears in the query string of the requested URL, as
`key=undefined`; a map with such a key never yields the bare endpoint; and a map that
`URLSearchParams` does not accept (a value whose string conversion throws) makes `get` throw
before any request. -/
theorem C13_undefined_amended (api : ApiService) (net : Backend) (w : World) (endpoint : String)
    (params : Props JsVal) (k : String) (h : params.get k = some .undefined) :
    (URLSearchParams.accepts params = true →
      ∃ items : List String,
        requestedUrl api net w endpoint params
          = some (api.baseURL ++ (endpoint ++ "?" ++ String.intercalate "&" items))
        ∧ (URLSearchParams.encode k ++ "=" ++ "undefined") ∈ items)
    ∧ requestedUrl api net w endpoint params ≠ some (api.baseURL ++ endpoint)
    ∧ (URLSearchParams.accepts params = false →
      api.get net w endpoint params = (.error JsVal.conversionError, w)) := by
  have hmem := Props.mem_entries_of_get params k .undefined h
  have hne : Props.entries params ≠ [] := List.ne_nil_of_mem hmem
  have hts : URLSearchParams.toString (Props.entries params)
      = String.intercalate "&" ((Props.entries params).map (fun kv =>
          URLSearchParams.encode kv.1 ++ "=" ++ URLSearchParams.encode kv.2.toStr)) := by
    unfold URLSearchParams.toString
    rfl
  have hurl : URLSearchParams.accepts params = true →
      requestedUrl api net w endpoint params
      = some (api.baseURL ++ (endpoint ++ "?" ++ String.intercalate "&"
          ((Props.entries params).map (fun kv =>
            URLSearchParams.encode kv.1 ++ "=" ++ URLSearchParams.encode kv.2.toStr)))) := by
    intro hacc
    rw [requestedUrl_eq _ _ _ _ _ hacc, if_pos (toString_ne_empty _ hne), hts]
  refine ⟨?_, ?_, ?_⟩
  · intro hacc
    refine ⟨_, hurl hacc, ?_⟩
    refine List.mem_map.mpr ⟨(k, .undefined), hmem, ?_⟩
    have hu : URLSearchParams.encode (JsVal.toStr .undefined) = "undefined" := by rfl
    simp only [hu]
  · cases hacc : URLSearchParams.accepts params with
    | false =>
      rw [(requestedUrl_none api net w endpoint params hacc).1]
      intro heq
      cases heq
    | true =>
      rw [hurl hacc]
      intro heq
      have hlen := congrArg (fun o => (o.map String.length).getD 0) heq
      simp only [Option.map_some', Option.getD_some, String.length_append] at hlen
      have h1 : ("?" : String).length = 1 := rfl
      omega
  · intro hacc
    exact (requestedUrl_none api net w endpoint params hacc).2

/-- C13, witness: the params `{status: undefined}`, and the params
`{status: undefined, tag: {toString: 1}}`, for which nothing is requested. -/
theorem C13_undefined_amended_witness :
    (∃ items : List String,
      requestedUrl localApi (answering 200 .null) freshBrowser "/tasks" [("status", .undefined)]
        = some (localApi.baseURL ++ ("/tasks" ++ "?" ++ String.intercalate "&" items))
      ∧ (URLSearchParams.encode "status" ++ "=" ++ "undefined") ∈ items)
    ∧ requestedUrl localApi (answering 200 .null) freshBrowser "/tasks" [("status", .undefined)]
      ≠ some (localApi.baseURL ++ "/tasks")
    ∧ localApi.get (answering 200 .null) freshBrowser "/tasks"
        [("status", .undefined), ("tag", unprintable)]
      = (.error "Cannot convert object to primitive value", freshBrowser) :=
  ⟨(C13_undefined_amended localApi (answering 200 .null) freshBrowser "/tasks"
      [("status", .undefined)] "status" rfl).1 rfl,
   (C13_undefined_amended localApi (answering 200 .null) freshBrowser "/tasks"
      [("status", .undefined)] "status" rfl).2.1,
   (C13_undefined_amended localApi (answering 200 .null) freshBrowser "/tasks"
      [("status", .undefined), ("tag", unprintable)] "status" rfl).2.2 rfl⟩

/-! ## C14: failure and success of `request` -/

/-- C14, counterexample: a response with status 500 whose body is the JSON value `null` makes
`request` fail with the message of a `TypeError`, not with the status-coded message; and a
response with status 204 whose body does not parse makes `request` fail although `ok` is
true. -/
theorem C14_request_counterexample :
    (localApi.request (answering 500 .null) freshBrowser "/tasks" { method := some "GET" }).1
      = .error "Cannot read properties of null (reading 'message')"
    ∧ (localApi.request
        (fun _ => .resolved { status := 204, body := .error "Unexpected end of JSON input" })
        freshBrowser "/tasks" { method := some "GET" }).1
      = .error "Unexpected end of JSON input"
    ∧ Response.ok { status := 204, body := .error "Unexpected end of JSON input" } = true :=
  ⟨rfl, rfl, rfl⟩

/-- C14, amended: for every response whose status is outside the success range and whose body
parses as a JSON value other than `null`, `request` fails, and the message of the failure is
the string form of the `message` field of the body when that field is truthy (the message of
the `TypeError` of the conversion when the field is an object whose string conversion throws)
and otherwise `HTTP error! status: ` followed by the status; for every response with `ok` true
whose body parses as JSON, `request` returns the parsed body. -/
theorem C14_request_amended (api : ApiService) (net : Backend) (w : World) (endpoint : String)
    (options : Options) (r : Response) (data : JsVal)
    (hnet : net (api.requestConfig w endpoint options) = .resolved r)
    (hbody : r.body = .ok data) :
    (r.ok = false → data.isPresent = true →
      (api.request net w endpoint options).1
        = .error (if (data.field "message").truthy = true
            then (if (data.field "message").convertible = true
              then (data.field "message").toStr
              else "Cannot convert object to primitive value")
            else "HTTP error! status: " ++ toString r.status))
    ∧ (r.ok = true → (api.request net w endpoint options).1 = .ok data) := by
  constructor
  · intro hok hpres
    have hm : data.readProp "message" = .ok (data.field "message") := by
      cases data <;> simp [JsVal.isPresent] at hpres <;> simp [JsVal.readProp, JsVal.field]
    unfold ApiService.request
    simp only [hnet, hbody, hok, hm]
    cases ht : (data.field "message").truthy <;>
      cases hc : (data.field "message").convertible <;>
      simp [JsVal.errorMessage, JsVal.conversionError, hc]
  · intro hok
    unfold ApiService.request
    simp [hnet, hbody, hok]

/-- C14, witness: status 401 with the body `{message: "invalid credentials"}`; and status 400
with the body `{message: 1e21}`, whose message is the string form `1e+21` of the number. -/
theorem C14_request_amended_witness :
    (localApi.request (answering 401 (.obj [("message", .str "invalid credentials")]))
        freshBrowser "/auth/login" { method := some "POST" }).1
      = .error "invalid credentials"
    ∧ (localApi.request (answering 400 (.obj [("message", .num "1e+21")]))
        freshBrowser "/tasks" { method := some "GET" }).1
      = .error "1e+21" :=
  ⟨(C14_request_amended localApi (answering 401 (.obj [("message", .str "invalid credentials")]))
      freshBrowser "/auth/login" { method := some "POST" }
      { status := 401, body := .ok (.obj [("message", .str "invalid credentials")]) }
      (.obj [("message", .str "invalid credentials")]) rfl rfl).1 rfl rfl,
   (C14_request_amended localApi (answering 400 (.obj [("message", .num "1e+21")]))
      freshBrowser "/tasks" { method := some "GET" }
      { status := 400, body := .ok (.obj [("message", .num "1e+21")]) }
      (.obj [("message", .num "1e+21")]) rfl rfl).1 rfl rfl⟩

/-! ## C15: the configuration handed to `fetch` -/

/-- C15, evaluation at the failing input: for `request('/tasks', {method: 'GET', headers:
{'X-Trace': '1'}})` the configuration handed to `fetch` has the caller's header only; it has
no `Content-Type` although the caller supplied none. -/
theorem C15_config_drops_content_type :
    (localApi.requestConfig freshBrowser "/tasks"
        { method := some "GET", headers := some [("X-Trace", "1")] }).headers
      = [("X-Trace", "1")]
    ∧ Props.get (localApi.requestConfig freshBrowser "/tasks"
        { method := some "GET", headers := some [("X-Trace", "1")] }).headers "Content-Type"
      = none
    ∧ (localApi.request (answering 200 .null) freshBrowser "/tasks"
        { method := some "GET", headers := some [("X-Trace", "1")] }).2.sent
      = [localApi.requestConfig freshBrowser "/tasks"
          { method := some "GET", headers := some [("X-Trace", "1")] }] :=
  ⟨rfl, rfl, rfl⟩

/-! ## C16: caller-supplied headers -/

/-- C16, counterexample: with the token `OLD` stored, a caller that supplies
`Authorization: Basic abc` gets a request that carries `Authorization: Bearer OLD`. -/
theorem C16_headers_counterexample :
    Props.get (localApi.requestConfig browserWithOldToken "/tasks"
        { method := some "GET", headers := some [("Authorization", "Basic abc")] }).headers
      "Authorization" = some "Bearer OLD" :=
  rfl

/-- C16, amended: for every header key `k` with value `v` that a caller supplies to `request`
via `options.headers`, the request handed to `fetch` carries header `k` with value `v`, in
place of the default `Content-Type` of the gateway, unless `k` is `Authorization` and a token
is stored; when a token `t` is stored the request carries `Authorization: Bearer t` whatever
the caller supplied. -/
theorem C16_headers_amended (api : ApiService) (net : Backend) (w : World) (endpoint : String)
    (options : Options) (h : Props String) (k v : String)
    (hh : options.headers = some h) (hk : h.get k = some v) :
    (api.request net w endpoint options).2.sent
      = w.sent ++ [api.requestConfig w endpoint options]
    ∧ ((k ≠ "Authorization" ∨ ApiService.getAuthToken w = none
          ∨ ApiService.getAuthToken w = some "") →
        (api.requestConfig w endpoint options).headers.get k = some v)
    ∧ (∀ t : String, ApiService.getAuthToken w = some t → t ≠ "" →
        (api.requestConfig w endpoint options).headers.get "Authorization"
          = some ("Bearer " ++ t)) := by
  refine ⟨by rw [request_world], ?_, ?_⟩
  · intro hcase
    unfold ApiService.requestConfig
    simp only [hh]
    cases ht : ApiService.getAuthToken w with
    | none => simpa using hk
    | some t =>
      by_cases hte : t = ""
      · simpa [hte] using hk
      · have hne : k ≠ "Authorization" := by
          rcases hcase with h1 | h1 | h1
          · exact h1
          · rw [ht] at h1; cases h1
          · rw [ht] at h1; exact absurd (Option.some.inj h1) hte
        simp only [hte, ne_eq, not_false_eq_true, if_true]
        rw [Props.get_set_ne _ _ _ _ (Ne.symm hne)]
        exact hk
  · intro t ht hte
    unfold ApiService.requestConfig
    simp only [hh, ht, hte, ne_eq, not_false_eq_true, if_true]
    exact Props.get_set_self _ _ _

/-- C16, witness: a caller-supplied `Content-Type: text/plain` replaces the default of the
gateway while the token `OLD` is stored. -/
theorem C16_headers_amended_witness :
    Props.get (localApi.requestConfig browserWithOldToken "/tasks"
        { method := some "PUT", headers := some [("Content-Type", "text/plain")] }).headers
      "Content-Type" = some "text/plain" :=
  (C16_headers_amended localApi (answering 200 .null) browserWithOldToken "/tasks"
    { method := some "PUT", headers := some [("Content-Type", "text/plain")] }
    [("Content-Type", "text/plain")] "Content-Type" "text/plain" rfl rfl).2.1
    (Or.inl (by decide))

/-! ## C17: the wire table -/

theorem issuesOne_request (api : ApiService) (net : Backend) (w : World) (method path : String)
    (body : Option JsVal) :
    IssuesOne api w method path body
      (api.request net w path { method := some method, body := body }) := by
  refine ⟨api.requestConfig w path { method := some method, body := body }, ?_, rfl, rfl, rfl⟩
  rw [request_world]

theorem setAuthToken_sent (w : World) (token : JsVal) :
    (ApiService.setAuthToken w token).sent = w.sent := by
  cases hw : w.hasWindow <;> simp [ApiService.setAuthToken, hw]

theorem issuesOne_login (api : ApiService) (net : Backend) (w : World) (credentials : JsVal) :
    IssuesOne api w "POST" "/auth/login" (bodyOf credentials) (api.login net w credentials)
    ∧ (gatewayResult api net w "POST" "/auth/login" (bodyOf credentials) ≠ .ok .null →
       gatewayResult api net w "POST" "/auth/login" (bodyOf credentials) ≠ .ok .undefined →
       (∀ response,
         gatewayResult api net w "POST" "/auth/login" (bodyOf credentials) = .ok response →
         ApiService.storeThrows w response = false) →
       (api.login net w credentials).1
         = gatewayResult api net w "POST" "/auth/login" (bodyOf credentials)) := by
  have h1 := issuesOne_request api net w "POST" "/auth/login" (bodyOf credentials)
  have hw := request_world api net w "/auth/login"
    { method := some "POST", body := some (credentials.withDefault (.obj [])) }
  unfold bodyOf at h1 ⊢
  unfold gatewayResult ApiService.login ApiService.post
  cases hp : api.request net w "/auth/login"
    { method := some "POST", body := some (credentials.withDefault (.obj [])) } with
  | mk res w2 =>
    rw [hp] at h1 hw
    obtain ⟨r, hs, hm, hu, hb⟩ := h1
    cases res with
    | error m => exact ⟨⟨r, hs, hm, hu, hb⟩, fun _ _ _ => rfl⟩
    | ok data =>
      dsimp only at hs hw ⊢
      cases hd : data.readProp "token" with
      | error m =>
        dsimp only
        refine ⟨⟨r, hs, hm, hu, hb⟩, ?_⟩
        intro hn hu' _
        cases data <;> simp [JsVal.readProp] at hd
        · exact absurd rfl hu'
        · exact absurd rfl hn
      | ok token =>
        dsimp only
        cases htr : token.truthy
        · rw [if_neg (by simp)]
          exact ⟨⟨r, hs, hm, hu, hb⟩, fun _ _ _ => rfl⟩
        · rw [if_pos rfl]
          cases hth : ApiService.setAuthTokenThrows w2 token
          · rw [if_neg (by simp)]
            exact ⟨⟨r, by rw [setAuthToken_sent]; exact hs, hm, hu, hb⟩, fun _ _ _ => rfl⟩
          · rw [if_pos rfl]
            refine ⟨⟨r, hs, hm, hu, hb⟩, ?_⟩
            intro _ _ hst
            exfalso
            have h2 := hst data rfl
            have htf := readProp_field data token "token" hd
            rw [hw] at hth
            simp [ApiService.storeThrows, ApiService.setAuthTokenThrows, htf, htr] at h2 hth
            rw [h2 hth.1] at hth
            simp at hth

theorem issuesOne_register (api : ApiService) (net : Backend) (w : World) (userData : JsVal) :
    IssuesOne api w "POST" "/auth/register" (bodyOf userData) (api.register net w userData)
    ∧ (gatewayResult api net w "POST" "/auth/register" (bodyOf userData) ≠ .ok .null →
       gatewayResult api net w "POST" "/auth/register" (bodyOf userData) ≠ .ok .undefined →
       (∀ response,
         gatewayResult api net w "POST" "/auth/register" (bodyOf userData) = .ok response →
         ApiService.storeThrows w response = false) →
       (api.register net w userData).1
         = gatewayResult api net w "POST" "/auth/register" (bodyOf userData)) := by
  have h1 := issuesOne_request api net w "POST" "/auth/register" (bodyOf userData)
  have hw := request_world api net w "/auth/register"
    { method := some "POST", body := some (userData.withDefault (.obj [])) }
  unfold bodyOf at h1 ⊢
  unfold gatewayResult ApiService.register ApiService.post
  cases hp : api.request net w "/auth/register"
    { method := some "POST", body := some (userData.withDefault (.obj [])) } with
  | mk res w2 =>
    rw [hp] at h1 hw
    obtain ⟨r, hs, hm, hu, hb⟩ := h1
    cases res with
    | error m => exact ⟨⟨r, hs, hm, hu, hb⟩, fun _ _ _ => rfl⟩
    | ok data =>
      dsimp only at hs hw ⊢
      cases hd : data.readProp "token" with
      | error m =>
        dsimp only
        refine ⟨⟨r, hs, hm, hu, hb⟩, ?_⟩
        intro hn hu' _
        cases data <;> simp [JsVal.readProp] at hd
        · exact absurd rfl hu'
        · exact absurd rfl hn
      | ok token =>
        dsimp only
        cases htr : token.truthy
        · rw [if_neg (by simp)]
          exact ⟨⟨r, hs, hm, hu, hb⟩, fun _ _ _ => rfl⟩
        · rw [if_pos rfl]
          cases hth : ApiService.setAuthTokenThrows w2 token
          · rw [if_neg (by simp)]
            exact ⟨⟨r, by rw [setAuthToken_sent]; exact hs, hm, hu, hb⟩, fun _ _ _ => rfl⟩
          · rw [if_pos rfl]
            refine ⟨⟨r, hs, hm, hu, hb⟩, ?_⟩
            intro _ _ hst
            exfalso
            have h2 := hst data rfl
            have htf := readProp_field data token "token" hd
            rw [hw] at hth
            simp [ApiService.storeThrows, ApiService.setAuthTokenThrows, htf, htr] at h2 hth
            rw [h2 hth.1] at hth
            simp at hth

/-- C17, counterexample: when the gateway returns the parsed body `null` for the login
request, `apiService.login` does not return it but fails; when the token of the response is an
object whose string conversion throws, `login` fails as well; and `getTask(id)` for such an
`id` issues no request at all. -/
theorem C17_wire_counterexample :
    gatewayResult localApi (answering 200 .null) freshBrowser "POST" "/auth/login"
        (some sampleCredentials) = .ok .null
    ∧ (localApi.login (answering 200 .null) freshBrowser sampleCredentials).1
      = .error "Cannot read properties of null (reading 'token')"
    ∧ gatewayResult localApi (answering 200 (.obj [("token", unprintable)])) freshBrowser
        "POST" "/auth/login" (some sampleCredentials) = .ok (.obj [("token", unprintable)])
    ∧ (localApi.login (answering 200 (.obj [("token", unprintable)])) freshBrowser
        sampleCredentials).1 = .error "Cannot convert object to primitive value"
    ∧ localApi.getTask (answering 200 .null) freshBrowser unprintable
      = (.error "Cannot convert object to primitive value", freshBrowser) :=
  ⟨rfl, rfl, rfl, rfl, rfl⟩

/-- C17, amended: each operation of the Domain API Client issues exactly one request with the
method and path of the wire table and returns the result of the gateway unchanged, for every
argument: for `getTask`, `updateTask`, `deleteTask` and `updateTaskStatus`, every `id` whose
string conversion returns, the path carrying that string; for `getTasks`, every filter object
that `URLSearchParams` accepts.  `register` and `login` return the result unchanged unless it
is `null` (or `undefined`) or storing its token throws.  The operations that send data send
their argument as the body, the empty object standing in for an argument that is `undefined`;
`updateTaskStatus(id, s)` sends `{status: s}`. -/
theorem C17_wire_amended (api : ApiService) (net : Backend) (w : World)
    (data id status : JsVal) (filters : Props JsVal) :
    (IssuesOne api w "POST" "/auth/register" (bodyOf data) (api.register net w data)
      ∧ (gatewayResult api net w "POST" "/auth/register" (bodyOf data) ≠ .ok .null →
         gatewayResult api net w "POST" "/auth/register" (bodyOf data) ≠ .ok .undefined →
         (∀ response,
           gatewayResult api net w "POST" "/auth/register" (bodyOf data) = .ok response →
           ApiService.storeThrows w response = false) →
         (api.register net w data).1
           = gatewayResult api net w "POST" "/auth/register" (bodyOf data)))
    ∧ (IssuesOne api w "POST" "/auth/login" (bodyOf data) (api.login net w data)
      ∧ (gatewayResult api net w "POST" "/auth/login" (bodyOf data) ≠ .ok .null →
         gatewayResult api net w "POST" "/auth/login" (bodyOf data) ≠ .ok .undefined →
         (∀ response,
           gatewayResult api net w "POST" "/auth/login" (bodyOf data) = .ok response →
           ApiService.storeThrows w response = false) →
         (api.login net w data).1 = gatewayResult api net w "POST" "/auth/login" (bodyOf data)))
    ∧ (IssuesOne api w "GET" "/auth/me" none (api.getCurrentUser net w)
      ∧ (api.getCurrentUser net w).1 = gatewayResult api net w "GET" "/auth/me" none)
    ∧ (IssuesOne api w "PUT" "/auth/profile" (bodyOf data) (api.updateProfile net w data)
      ∧ (api.updateProfile net w data).1
          = gatewayResult api net w "PUT" "/auth/profile" (bodyOf data))
    ∧ (IssuesOne api w "POST" "/auth/change-password" (bodyOf data)
          (api.changePassword net w data)
      ∧ (api.changePassword net w data).1
          = gatewayResult api net w "POST" "/auth/change-password" (bodyOf data))
    ∧ (URLSearchParams.accepts filters = true →
      IssuesOne api w "GET" (tasksPath filters) none (api.getTasks net w filters)
      ∧ (api.getTasks net w filters).1 = gatewayResult api net w "GET" (tasksPath filters) none)
    ∧ tasksPath [] = "/tasks"
    ∧ (id.convertible = true →
      IssuesOne api w "GET" ("/tasks/" ++ id.toStr) none (api.getTask net w id)
      ∧ (api.getTask net w id).1 = gatewayResult api net w "GET" ("/tasks/" ++ id.toStr) none)
    ∧ (IssuesOne api w "POST" "/tasks" (bodyOf data) (api.createTask net w data)
      ∧ (api.createTask net w data).1 = gatewayResult api net w "POST" "/tasks" (bodyOf data))
    ∧ (id.convertible = true →
      IssuesOne api w "PUT" ("/tasks/" ++ id.toStr) (bodyOf data) (api.updateTask net w id data)
      ∧ (api.updateTask net w id data).1
          = gatewayResult api net w "PUT" ("/tasks/" ++ id.toStr) (bodyOf data))
    ∧ (id.convertible = true →
      IssuesOne api w "DELETE" ("/tasks/" ++ id.toStr) none (api.deleteTask net w id)
      ∧ (api.deleteTask net w id).1
          = gatewayResult api net w "DELETE" ("/tasks/" ++ id.toStr) none)
    ∧ (id.convertible = true →
      IssuesOne api w "PATCH" ("/tasks/" ++ id.toStr ++ "/status")
          (some (.obj [("status", status)])) (api.updateTaskStatus net w id status)
      ∧ (api.updateTaskStatus net w id status).1
          = gatewayResult api net w "PATCH" ("/tasks/" ++ id.toStr ++ "/status")
              (some (.obj [("status", status)])))
    ∧ (IssuesOne api w "GET" "/health" none (api.healthCheck net w)
      ∧ (api.healthCheck net w).1 = gatewayResult api net w "GET" "/health" none) := by
  have hget : ∀ endpoint : String,
      api.get net w endpoint [] = api.request net w endpoint { method := some "GET" } :=
    fun endpoint => get_noParams api net w endpoint
  refine ⟨issuesOne_register api net w data, issuesOne_login api net w data,
    ?_, ?_, ?_, ?_, rfl, ?_, ?_, ?_, ?_, ?_, ?_⟩
  · unfold ApiService.getCurrentUser gatewayResult
    rw [hget]
    exact ⟨issuesOne_request api net w "GET" "/auth/me" none, rfl⟩
  · exact ⟨issuesOne_request api net w "PUT" "/auth/profile" (bodyOf data), rfl⟩
  · exact ⟨issuesOne_request api net w "POST" "/auth/change-password" (bodyOf data), rfl⟩
  · intro hacc
    have hg : api.getTasks net w filters
        = api.request net w (tasksPath filters) { method := some "GET" } := by
      simp only [ApiService.getTasks, ApiService.get, hacc, if_true, tasksPath]
    rw [hg]
    exact ⟨issuesOne_request api net w "GET" (tasksPath filters) none, rfl⟩
  · intro hc
    unfold ApiService.getTask gatewayResult
    rw [if_pos hc, hget]
    exact ⟨issuesOne_request api net w "GET" _ none, rfl⟩
  · exact ⟨issuesOne_request api net w "POST" "/tasks" (bodyOf data), rfl⟩
  · intro hc
    unfold ApiService.updateTask
    rw [if_pos hc]
    exact ⟨issuesOne_request api net w "PUT" _ (bodyOf data), rfl⟩
  · intro hc
    unfold ApiService.deleteTask
    rw [if_pos hc]
    exact ⟨issuesOne_request api net w "DELETE" _ none, rfl⟩
  · intro hc
    unfold ApiService.updateTaskStatus
    rw [if_pos hc]
    exact ⟨issuesOne_request api net w "PATCH" _ (some (.obj [("status", status)])), rfl⟩
  · unfold ApiService.healthCheck gatewayResult
    rw [hget]
    exact ⟨issuesOne_request api net w "GET" "/health" none, rfl⟩

/-- C17, witness: the login of the sample scenario returns the response of the gateway, and
`getTask("42")` issues the one request `GET /tasks/42`. -/
theorem C17_wire_amended_witness :
    (localApi.login (answering 200 loginOk) freshBrowser sampleCredentials).1
      = gatewayResult localApi (answering 200 loginOk) freshBrowser "POST" "/auth/login"
          (some sampleCredentials)
    ∧ IssuesOne localApi freshBrowser "GET" "/tasks/42" none
        (localApi.getTask (answering 200 loginOk) freshBrowser (.str "42")) :=
  ⟨(C17_wire_amended localApi (answering 200 loginOk) freshBrowser sampleCredentials
      (.str "42") (.str "completed") []).2.1.2
      (fun h => by cases h) (fun h => by cases h)
      (fun response h => by cases h; rfl),
   ((C17_wire_amended localApi (answering 200 loginOk) freshBrowser sampleCredentials
      (.str "42") (.str "completed") []).2.2.2.2.2.2.2.1 rfl).1⟩

/-! ## C18: laws of the Credential Store -/

theorem remove_remove {α : Type} (o : Props α) (k : String) :
    Props.remove (Props.remove o k) k = Props.remove o k := by
  simp [Props.remove, List.filter_filter]

theorem remove_of_get_none {α : Type} (o : Props α) (k : String) (h : Props.get o k = none) :
    Props.remove o k = o := by
  induction o with
  | nil => rfl
  | cons kv rest ih =>
    obtain ⟨k1, v1⟩ := kv
    rw [Props.get_cons] at h
    cases hr : Props.get rest k with
    | some x => simp [hr] at h
    | none =>
      have hne : k1 ≠ k := by
        intro he
        simp [hr, he] at h
      have ih' : List.filter (fun kv => !decide (kv.1 = k)) rest = rest := ih hr
      simp [Props.remove, hne, ih']

/-- C18, counterexample: where `window` is not defined, `getAuthToken()` after
`setAuthToken("T1")` returns no token. -/
theorem C18_store_counterexample :
    ApiService.getAuthToken (ApiService.setAuthToken noWindow (.str "T1")) = none :=
  rfl

/-- C18, amended: where `window` is defined, for every token `t` and every prior content,
`getAuthToken()` after `setAuthToken(t)` returns `t`; in every environment `getAuthToken()`
after `removeAuthToken()` returns absent, removing twice leaves the same state as removing
once, and removing when `localStorage` holds no token leaves the state as it is. -/
theorem C18_store_amended (w : World) (t : String) :
    (w.hasWindow = true →
      ApiService.getAuthToken (ApiService.setAuthToken w (.str t)) = some t)
    ∧ ApiService.getAuthToken (ApiService.removeAuthToken w) = none
    ∧ ApiService.removeAuthToken (ApiService.removeAuthToken w) = ApiService.removeAuthToken w
    ∧ (w.localStorage.get "taskflow_token" = none → ApiService.removeAuthToken w = w) := by
  refine ⟨?_, getAuthToken_removeAuthToken w, ?_, ?_⟩
  · intro hw
    exact getAuthToken_setAuthToken w (.str t) hw
  · cases hw : w.hasWindow <;> simp [ApiService.removeAuthToken, hw, remove_remove]
  · intro hn
    obtain ⟨hasWindow, localStorage, sent⟩ := w
    cases hasWindow <;> simp [ApiService.removeAuthToken]
    exact remove_of_get_none _ _ hn

/-- C18, witness: storing `T1` over `OLD` in a browser, and removing from an empty store. -/
theorem C18_store_amended_witness :
    ApiService.getAuthToken (ApiService.setAuthToken browserWithOldToken (.str "T1"))
      = some "T1"
    ∧ ApiService.removeAuthToken freshBrowser = freshBrowser :=
  ⟨(C18_store_amended browserWithOldToken "T1").1 rfl,
   (C18_store_amended freshBrowser "T1").2.2.2 rfl⟩

/-! ## The machine agrees with the operations run to completion -/

theorem request_eq_settle (api : ApiService) (net : Backend) (w : World) (endpoint : String)
    (options : Options) :
    api.request net w endpoint options
      = (ApiService.settle (net (api.requestConfig w endpoint options)),
         api.send w endpoint options) := by
  unfold ApiService.request ApiService.settle ApiService.send
  cases hn : net (api.requestConfig w endpoint options) with
  | rejected m => simp [hn]
  | resolved r =>
    cases hb : r.body with
    | error m => simp [hn, hb]
    | ok d =>
      cases hok : r.ok with
      | false =>
        cases hm : d.readProp "message" with
        | error m => simp [hn, hb, hok, hm]
        | ok msg => cases ht : msg.truthy <;> simp [hn, hb, hok, hm, ht]
      | true => simp [hn, hb, hok]

/-- A call of `login` followed at once by its resumption leaves the Session and the
environment that `login` run to completion leaves. -/
theorem machine_login (api : ApiService) (net : Backend) (s : AuthState) (w : World)
    (d : List AuthAction) (credentials : JsVal) :
    let m1 := Machine.call api (.login credentials)
      { session := s, world := w, suspended := [], dispatched := d }
    let m2 := m1.resume 0 (net (api.requestConfig w "/auth/login"
      { method := some "POST", body := some (credentials.withDefault (.obj [])) }))
    (m2.session, m2.world) = runOp api net (.login credentials) (s, w) := by
  simp only [Machine.call, Machine.resume, Machine.dispatch, runOp, AuthProvider.login,
    ApiService.login, ApiService.post, request_eq_settle, List.nil_append,
    List.getElem?_cons_zero, List.eraseIdx_cons_zero, Machine.resumeLogin]
  cases ApiService.settle (net (api.requestConfig w "/auth/login"
      { method := some "POST", body := some (credentials.withDefault (.obj [])) })) with
  | error e => rfl
  | ok response =>
    dsimp only
    cases response.readProp "token" with
    | error e => rfl
    | ok token =>
      dsimp only
      generalize ApiService.setAuthTokenThrows _ token = throws
      cases token.truthy <;> cases throws <;>
        simp only [Bool.true_and, Bool.false_and, Bool.and_false, Bool.and_true, if_true,
          Bool.false_eq_true, if_false] <;>
        cases response.readProp "user" with
        | error e => rfl
        | ok user => dsimp only; cases response.readProp "message" <;> rfl

/-- A call of `loadUser` followed at once by its resumption (if it was suspended) leaves the
Session and the environment that `loadUser` run to completion leaves. -/
theorem machine_loadUser (api : ApiService) (net : Backend) (s : AuthState) (w : World)
    (d : List AuthAction) :
    let m1 := Machine.call api .loadUser
      { session := s, world := w, suspended := [], dispatched := d }
    let m2 := m1.resume 0 (net (api.requestConfig w "/auth/me" { method := some "GET" }))
    (m2.session, m2.world) = runOp api net .loadUser (s, w) := by
  simp only [Machine.call, runOp, AuthProvider.loadUser, ApiService.getCurrentUser,
    get_noParams, request_eq_settle]
  split
  · rfl
  · simp only [Machine.resume, Machine.dispatch, List.nil_append, List.getElem?_cons_zero,
      List.eraseIdx_cons_zero, Machine.resumeLoadUser]
    cases ApiService.settle (net (api.requestConfig w "/auth/me" { method := some "GET" })) with
    | error e => rfl
    | ok response => dsimp only; cases response.readProp "user" <;> rfl

/-- A call of `register` followed at once by its resumption leaves the Session and the
environment that `register` run to completion leaves. -/
theorem machine_register (api : ApiService) (net : Backend) (s : AuthState) (w : World)
    (d : List AuthAction) (userData : JsVal) :
    let m1 := Machine.call api (.register userData)
      { session := s, world := w, suspended := [], dispatched := d }
    let m2 := m1.resume 0 (net (api.requestConfig w "/auth/register"
      { method := some "POST", body := some (userData.withDefault (.obj [])) }))
    (m2.session, m2.world) = runOp api net (.register userData) (s, w) := by
  simp only [Machine.call, Machine.resume, Machine.dispatch, runOp, AuthProvider.register,
    ApiService.register, ApiService.post, request_eq_settle, List.nil_append,
    List.getElem?_cons_zero, List.eraseIdx_cons_zero, Machine.resumeLogin]
  cases ApiService.settle (net (api.requestConfig w "/auth/register"
      { method := some "POST", body := some (userData.withDefault (.obj [])) })) with
  | error e => rfl
  | ok response =>
    dsimp only
    cases response.readProp "token" with
    | error e => rfl
    | ok token =>
      dsimp only
      generalize ApiService.setAuthTokenThrows _ token = throws
      cases token.truthy <;> cases throws <;>
        simp only [Bool.true_and, Bool.false_and, Bool.and_false, Bool.and_true, if_true,
          Bool.false_eq_true, if_false] <;>
        cases response.readProp "user" with
        | error e => rfl
        | ok user => dsimp only; cases response.readProp "message" <;> rfl

/-- A call of `logout` followed at once by its resumption leaves the Session and the
environment that `logout` run to completion leaves. -/
theorem machine_logout (api : ApiService) (net : Backend) (s : AuthState) (w : World)
    (d : List AuthAction) (o : FetchOutcome) :
    let m1 := Machine.call api .logout
      { session := s, world := w, suspended := [], dispatched := d }
    let m2 := m1.resume 0 o
    (m2.session, m2.world) = runOp api net .logout (s, w) := by
  rfl

/-- A call of `updateProfile` followed at once by its resumption leaves the Session and the
environment that `updateProfile` run to completion leaves. -/
theorem machine_updateProfile (api : ApiService) (net : Backend) (s : AuthState) (w : World)
    (d : List AuthAction) (userData : JsVal) :
    let m1 := Machine.call api (.updateProfile userData)
      { session := s, world := w, suspended := [], dispatched := d }
    let m2 := m1.resume 0 (net (api.requestConfig w "/auth/profile"
      { method := some "PUT", body := some (userData.withDefault (.obj [])) }))
    (m2.session, m2.world) = runOp api net (.updateProfile userData) (s, w) := by
  simp only [Machine.call, Machine.resume, Machine.dispatch, runOp, AuthProvider.updateProfile,
    ApiService.updateProfile, ApiService.put, request_eq_settle, List.nil_append,
    List.getElem?_cons_zero, List.eraseIdx_cons_zero, Machine.resumeUpdateProfile]
  cases ApiService.settle (net (api.requestConfig w "/auth/profile"
      { method := some "PUT", body := some (userData.withDefault (.obj [])) })) with
  | error e => rfl
  | ok response =>
    dsimp only
    cases response.readProp "user" with
    | error e => rfl
    | ok user => dsimp only; cases response.readProp "message" <;> rfl

/-! ## C19: the loading flag -/

theorem loadingJustified_of_false (m : Machine) (h : m.session.isLoading = false) :
    LoadingJustified m := by
  intro h'
  rw [h] at h'
  cases h'

theorem any_eraseIdx_of_not {α : Type} (p : α → Bool) (l : List α) (i : Nat) (x : α)
    (hx : l[i]? = some x) (hp : p x = false) : (l.eraseIdx i).any p = l.any p := by
  induction l generalizing i with
  | nil => simp at hx
  | cons y rest ih =>
    cases i with
    | zero =>
      simp only [List.getElem?_cons_zero, Option.some.injEq] at hx
      subst hx
      simp [hp]
    | succ j =>
      simp only [List.getElem?_cons_succ] at hx
      simp [List.eraseIdx, ih j hx]

theorem loadingJustified_call (api : ApiService) (op : Op) (m : Machine)
    (h : LoadingJustified m) : LoadingJustified (m.call api op) := by
  cases op with
  | loadUser =>
    unfold Machine.call
    simp only
    split
    · exact loadingJustified_of_false _ rfl
    · intro _
      left
      simp [Machine.dispatch, Suspended.isLoadingOp]
  | login c =>
    intro _
    left
    simp [Machine.call, Machine.dispatch, Suspended.isLoadingOp]
  | register d =>
    intro _
    left
    simp [Machine.call, Machine.dispatch, Suspended.isLoadingOp]
  | logout =>
    intro hl
    rcases h hl with h1 | h1
    · left
      simp only [Machine.call, List.any_append, Bool.or_eq_true]
      exact Or.inl h1
    · right
      exact h1
  | updateProfile d =>
    intro hl
    rcases h hl with h1 | h1
    · left
      simp only [Machine.call, List.any_append, Bool.or_eq_true]
      exact Or.inl h1
    · right
      exact h1
  | clearError =>
    intro hl
    have hl' : m.session.isLoading = true := by
      simpa [Machine.call, Machine.dispatch, authReducer] using hl
    rcases h hl' with h1 | h1
    · left
      exact h1
    · right
      simp only [Machine.call, Machine.dispatch, List.all_append, Bool.and_eq_true]
      exact ⟨h1, rfl⟩

theorem resumeLogin_not_loading (o : FetchOutcome) (m : Machine) :
    (Machine.resumeLogin o m).session.isLoading = false := by
  unfold Machine.resumeLogin
  cases ApiService.settle o with
  | error e => rfl
  | ok response =>
    dsimp only
    cases response.readProp "token" with
    | error e => rfl
    | ok token =>
      dsimp only
      cases (token.truthy && ApiService.setAuthTokenThrows m.world token) with
      | true => rfl
      | false =>
        rw [if_neg (by simp)]
        cases response.readProp "user" with
        | error e => rfl
        | ok user =>
          dsimp only
          cases response.readProp "message" <;> rfl

theorem resumeLoadUser_not_loading (o : FetchOutcome) (m : Machine) :
    (Machine.resumeLoadUser o m).session.isLoading = false := by
  unfold Machine.resumeLoadUser
  cases ApiService.settle o with
  | error e => rfl
  | ok response =>
    dsimp only
    cases response.readProp "user" <;> rfl

theorem loadingJustified_resume (i : Nat) (o : FetchOutcome) (m : Machine)
    (h : LoadingJustified m) : LoadingJustified (m.resume i o) := by
  unfold Machine.resume
  cases hi : m.suspended[i]? with
  | none => exact h
  | some op =>
    cases op with
    | login => exact loadingJustified_of_false _ (resumeLogin_not_loading o _)
    | register => exact loadingJustified_of_false _ (resumeLogin_not_loading o _)
    | loadUser => exact loadingJustified_of_false _ (resumeLoadUser_not_loading o _)
    | logout => exact loadingJustified_of_false _ rfl
    | updateProfile =>
      have herase : (m.suspended.eraseIdx i).any Suspended.isLoadingOp
          = m.suspended.any Suspended.isLoadingOp :=
        any_eraseIdx_of_not _ _ i .updateProfile hi rfl
      have hbase : LoadingJustified { m with suspended := m.suspended.eraseIdx i } := by
        intro hl
        rcases h hl with h1 | h1
        · left
          simpa [herase] using h1
        · right
          exact h1
      dsimp only
      unfold Machine.resumeUpdateProfile
      cases ApiService.settle o with
      | error e => exact hbase
      | ok response =>
        dsimp only
        cases response.readProp "user" with
        | error e => exact hbase
        | ok user =>
          intro hl
          have hl' : m.session.isLoading = true := by
            simpa [Machine.dispatch, authReducer] using hl
          rcases hbase hl' with h1 | h1
          · left
            exact h1
          · right
            simp only [Machine.dispatch, List.all_append, Bool.and_eq_true]
            exact ⟨h1, rfl⟩

theorem loadingJustified_run (api : ApiService) (events : List Event) (m : Machine)
    (h : LoadingJustified m) : LoadingJustified (Machine.run api events m) := by
  induction events generalizing m with
  | nil => exact h
  | cons e rest ih =>
    apply ih
    cases e with
    | call op => exact loadingJustified_call api op m h
    | resume i o => exact loadingJustified_resume i o m h

/-- C19, counterexample: at startup `isLoading` is true while no operation has started. -/
theorem C19_loading_counterexample :
    (Machine.init freshBrowser).session.isLoading = true
    ∧ (Machine.init freshBrowser).suspended = []
    ∧ (Machine.init freshBrowser).suspended.any Suspended.isLoadingOp = false :=
  ⟨rfl, rfl, rfl⟩

/-- C19, amended: in every state of the provider reachable from startup by calls of the
operations and resumptions of suspended operations, in any interleaving, `isLoading` is true
only if a `loadUser`, `login` or `register` operation has started and has not yet completed,
or no action other than `CLEAR_ERROR` and `UPDATE_USER` has been dispatched since startup (the
Session still has the `isLoading: true` of `initialState`). -/
theorem C19_loading_amended (api : ApiService) (w0 : World) (events : List Event)
    (h : (Machine.run api events (Machine.init w0)).session.isLoading = true) :
    (Machine.run api events (Machine.init w0)).suspended.any Suspended.isLoadingOp = true
    ∨ (Machine.run api events (Machine.init w0)).dispatched.all AuthAction.keepsLoading
        = true :=
  loadingJustified_run api events (Machine.init w0) (fun _ => Or.inr rfl) h

/-- C19, witness: after a completed logout, a login that has started and not completed. -/
theorem C19_loading_amended_witness :
    (Machine.run localApi
        [.call .logout, .resume 0 (.rejected ""), .call (.login sampleCredentials)]
        (Machine.init freshBrowser)).session.isLoading = true
    ∧ ((Machine.run localApi
        [.call .logout, .resume 0 (.rejected ""), .call (.login sampleCredentials)]
        (Machine.init freshBrowser)).suspended.any Suspended.isLoadingOp = true
      ∨ (Machine.run localApi
        [.call .logout, .resume 0 (.rejected ""), .call (.login sampleCredentials)]
        (Machine.init freshBrowser)).dispatched.all AuthAction.keepsLoading = true) :=
  ⟨rfl, C19_loading_amended localApi freshBrowser
    [.call .logout, .resume 0 (.rejected ""), .call (.login sampleCredentials)] rfl⟩

/-! ## C20: validation in the form -/

theorem login_sent (api : ApiService) (net : Backend) (w : World) (credentials : JsVal) :
    (api.login net w credentials).2.sent
      = w.sent ++ [api.requestConfig w "/auth/login"
          { method := some "POST", body := some (credentials.withDefault (.obj [])) }] := by
  simp only [ApiService.login, ApiService.post, request_eq_settle]
  cases ApiService.settle (net (api.requestConfig w "/auth/login"
      { method := some "POST", body := some (credentials.withDefault (.obj [])) })) with
  | error m => rfl
  | ok response =>
    dsimp only
    cases response.readProp "token" with
    | error m => rfl
    | ok token =>
      dsimp only
      generalize ApiService.setAuthTokenThrows _ token = throws
      cases token.truthy
      · rfl
      · cases throws
        · simp only [if_true, Bool.false_eq_true, if_false, setAuthToken_sent]
          rfl
        · rfl

theorem register_sent (api : ApiService) (net : Backend) (w : World) (userData : JsVal) :
    (api.register net w userData).2.sent
      = w.sent ++ [api.requestConfig w "/auth/register"
          { method := some "POST", body := some (userData.withDefault (.obj [])) }] := by
  simp only [ApiService.register, ApiService.post, request_eq_settle]
  cases ApiService.settle (net (api.requestConfig w "/auth/register"
      { method := some "POST", body := some (userData.withDefault (.obj [])) })) with
  | error m => rfl
  | ok response =>
    dsimp only
    cases response.readProp "token" with
    | error m => rfl
    | ok token =>
      dsimp only
      generalize ApiService.setAuthTokenThrows _ token = throws
      cases token.truthy
      · rfl
      · cases throws
        · simp only [if_true, Bool.false_eq_true, if_false, setAuthToken_sent]
          rfl
        · rfl

theorem provider_login_world (api : ApiService) (net : Backend) (s : AuthState) (w : World)
    (credentials : JsVal) :
    (AuthProvider.login api net s w credentials).2.1 = (api.login net w credentials).2 := by
  unfold AuthProvider.login
  cases api.login net w credentials with
  | mk res w1 =>
    cases res with
    | error m => rfl
    | ok response =>
      dsimp only
      cases response.readProp "user" with
      | error m => rfl
      | ok user => dsimp only; cases response.readProp "message" <;> rfl

theorem provider_register_world (api : ApiService) (net : Backend) (s : AuthState) (w : World)
    (userData : JsVal) :
    (AuthProvider.register api net s w userData).2.1 = (api.register net w userData).2 := by
  unfold AuthProvider.register
  cases api.register net w userData with
  | mk res w1 =>
    cases res with
    | error m => rfl
    | ok response =>
      dsimp only
      cases response.readProp "user" with
      | error m => rfl
      | ok user => dsimp only; cases response.readProp "message" <;> rfl

/-- C20: for every content of the form, if the email or the password is empty, or the form is
in registration mode and the name is empty, then `handleSubmit` calls neither `login` nor
`register`, the Session is untouched, no request reaches the gateway, and `formError` is set to
a non-empty message.  When all required fields are non-empty, exactly one of `login` and
`register` is called, chosen by the mode: in login mode the only call is `login({email,
password})`, in registration mode it is `register({name, email, password})`; the Session and
the environment afterwards are those that this call leaves, `formError` is the error of its
result (empty on success), and exactly one request has been handed to `fetch`, the `POST` of
`/auth/login` or of `/auth/register` with that object as body. -/
theorem C20_form_validation (api : ApiService) (net : Backend) (isLogin : Bool)
    (formData : FormData) (session : AuthState) (world : World) :
    ((formData.email = "" ∨ formData.password = ""
        ∨ (isLogin = false ∧ formData.name = "")) →
      (handleSubmit api net isLogin formData session world).calls = []
      ∧ (handleSubmit api net isLogin formData session world).world = world
      ∧ (handleSubmit api net isLogin formData session world).session = session
      ∧ (handleSubmit api net isLogin formData session world).formError ≠ "")
    ∧ ((formData.email ≠ "" ∧ formData.password ≠ ""
        ∧ (isLogin = false → formData.name ≠ "")) →
      (isLogin = true →
        (handleSubmit api net isLogin formData session world).calls
          = [AuthCall.login formData.credentials]
        ∧ (handleSubmit api net isLogin formData session world).session
          = (AuthProvider.login api net session world formData.credentials).1
        ∧ (handleSubmit api net isLogin formData session world).world
          = (AuthProvider.login api net session world formData.credentials).2.1
        ∧ (handleSubmit api net isLogin formData session world).formError
          = submitError (AuthProvider.login api net session world formData.credentials).2.2
        ∧ (handleSubmit api net isLogin formData session world).world.sent
          = world.sent ++ [api.requestConfig world "/auth/login"
              { method := some "POST", body := some formData.credentials }])
      ∧ (isLogin = false →
        (handleSubmit api net isLogin formData session world).calls
          = [AuthCall.register formData.userData]
        ∧ (handleSubmit api net isLogin formData session world).session
          = (AuthProvider.register api net session world formData.userData).1
        ∧ (handleSubmit api net isLogin formData session world).world
          = (AuthProvider.register api net session world formData.userData).2.1
        ∧ (handleSubmit api net isLogin formData session world).formError
          = submitError (AuthProvider.register api net session world formData.userData).2.2
        ∧ (handleSubmit api net isLogin formData session world).world.sent
          = world.sent ++ [api.requestConfig world "/auth/register"
              { method := some "POST", body := some formData.userData }])) := by
  constructor
  · intro hinv
    unfold handleSubmit
    by_cases h1 : formData.email = "" ∨ formData.password = ""
    · rw [if_pos h1]
      exact ⟨rfl, rfl, rfl, show "Please fill in all required fields" ≠ "" by decide⟩
    · rw [if_neg h1]
      have h2 : isLogin = false ∧ formData.name = "" := by
        rcases hinv with h | h | h
        · exact absurd (Or.inl h) h1
        · exact absurd (Or.inr h) h1
        · exact h
      rw [if_pos h2]
      exact ⟨rfl, rfl, rfl, show "Please enter your name" ≠ "" by decide⟩
  · intro hval
    obtain ⟨he, hp, hn⟩ := hval
    have h1 : ¬(formData.email = "" ∨ formData.password = "") := by
      intro h
      rcases h with h | h
      · exact he h
      · exact hp h
    have h2 : ¬(isLogin = false ∧ formData.name = "") := fun h => hn h.1 h.2
    constructor
    · intro hl
      subst hl
      have hs : (AuthProvider.login api net session world formData.credentials).2.1.sent
          = world.sent ++ [api.requestConfig world "/auth/login"
              { method := some "POST", body := some formData.credentials }] := by
        rw [provider_login_world, login_sent]
        rfl
      unfold handleSubmit
      rw [if_neg h1, if_neg h2, if_pos rfl]
      exact ⟨rfl, rfl, rfl, rfl, hs⟩
    · intro hl
      subst hl
      have hs : (AuthProvider.register api net session world formData.userData).2.1.sent
          = world.sent ++ [api.requestConfig world "/auth/register"
              { method := some "POST", body := some formData.userData }] := by
        rw [provider_register_world, register_sent]
        rfl
      unfold handleSubmit
      rw [if_neg h1, if_neg h2, if_neg (by decide)]
      exact ⟨rfl, rfl, rfl, rfl, hs⟩

/-- C20, witness: a form without password makes no call and leaves the Session and the
environment as they were; a filled login form calls `login` once, ends in the Session of the
logged-in user with no form error, and has handed to `fetch` the one `POST` of `/auth/login`
with the credentials as body. -/
theorem C20_form_validation_witness :
    ((handleSubmit localApi (answering 200 loginOk) true
        { name := "", email := "a@b.com", password := "" } initialState freshBrowser).calls = []
      ∧ (handleSubmit localApi (answering 200 loginOk) true
        { name := "", email := "a@b.com", password := "" } initialState freshBrowser).world
        = freshBrowser
      ∧ (handleSubmit localApi (answering 200 loginOk) true
        { name := "", email := "a@b.com", password := "" } initialState freshBrowser).session
        = initialState
      ∧ (handleSubmit localApi (answering 200 loginOk) true
        { name := "", email := "a@b.com", password := "" } initialState freshBrowser).formError
        ≠ "")
    ∧ ((handleSubmit localApi (answering 200 loginOk) true
        { name := "", email := "a@b.com", password := "x" } initialState freshBrowser).calls
        = [AuthCall.login sampleCredentials]
      ∧ (handleSubmit localApi (answering 200 loginOk) true
        { name := "", email := "a@b.com", password := "x" } initialState freshBrowser).session
        = { user := sampleUser, isAuthenticated := true, isLoading := false, error := none }
      ∧ (handleSubmit localApi (answering 200 loginOk) true
        { name := "", email := "a@b.com", password := "x" } initialState freshBrowser).formError
        = ""
      ∧ (handleSubmit localApi (answering 200 loginOk) true
        { name := "", email := "a@b.com", password := "x" } initialState freshBrowser).world.wire
        = [(some "POST", "http://localhost:5000/api/auth/login")]) :=
  have hvalid := ((C20_form_validation localApi (answering 200 loginOk) true
      { name := "", email := "a@b.com", password := "x" } initialState freshBrowser).2
      ⟨by decide, by decide, fun h => by cases h⟩).1 rfl
  ⟨(C20_form_validation localApi (answering 200 loginOk) true
      { name := "", email := "a@b.com", password := "" } initialState freshBrowser).1
      (Or.inr (Or.inl rfl)),
   ⟨hvalid.1, hvalid.2.1, hvalid.2.2.2.1,
    (congrArg (fun sent => sent.map (fun r => (r.method, r.url))) hvalid.2.2.2.2 :)⟩⟩

/-! ## C21: logout is idempotent -/

/-- C21: for every Session state `s`, `authReducer(authReducer(s, LOGOUT), LOGOUT)` equals
`authReducer(s, LOGOUT)`; and calling `logout()` when the Session is already anonymous and no
token is stored returns `{success: true}`, hands no request to `fetch`, and leaves the Session
anonymous and the Credential Store empty. -/
theorem C21_logout_idempotent (api : ApiService) (s : AuthState) (w : World) :
    authReducer (authReducer s .LOGOUT) .LOGOUT = authReducer s .LOGOUT
    ∧ (s = { user := .null, isAuthenticated := false, isLoading := false, error := none } →
       ApiService.getAuthToken w = none →
        (AuthProvider.logout api s w).2.2 = { success := true, message := none, error := none }
        ∧ (AuthProvider.logout api s w).1 = s
        ∧ ApiService.getAuthToken (AuthProvider.logout api s w).2.1 = none
        ∧ (AuthProvider.logout api s w).2.1.sent = w.sent) := by
  refine ⟨rfl, ?_⟩
  intro hs _
  subst hs
  refine ⟨rfl, rfl, ?_, ?_⟩
  · simpa [AuthProvider.logout, ApiService.logout] using getAuthToken_removeAuthToken w
  · simpa [AuthProvider.logout, ApiService.logout] using removeAuthToken_sent w

/-- C21, witness: logout in a fresh browser from the anonymous Session. -/
theorem C21_logout_idempotent_witness :
    (AuthProvider.logout localApi
        { user := .null, isAuthenticated := false, isLoading := false, error := none }
        freshBrowser).2.2 = { success := true, message := none, error := none }
    ∧ (AuthProvider.logout localApi
        { user := .null, isAuthenticated := false, isLoading := false, error := none }
        freshBrowser).1
      = { user := .null, isAuthenticated := false, isLoading := false, error := none }
    ∧ ApiService.getAuthToken (AuthProvider.logout localApi
        { user := .null, isAuthenticated := false, isLoading := false, error := none }
        freshBrowser).2.1 = none
    ∧ (AuthProvider.logout localApi
        { user := .null, isAuthenticated := false, isLoading := false, error := none }
        freshBrowser).2.1.sent = freshBrowser.sent :=
  (C21_logout_idempotent localApi
    { user := .null, isAuthenticated := false, isLoading := false, error := none }
    freshBrowser).2 rfl rfl

/-! ## C23: the last completion wins -/

/-- C23: for every pair of Session states `s1`, `s2` and every completion action among
`LOGIN_SUCCESS`, `LOGIN_FAILURE`, `LOAD_USER_SUCCESS`, `LOAD_USER_FAILURE` and `LOGOUT`, with
its payload, the reducer gives the same Session from `s1` as from `s2`: user,
`isAuthenticated`, `isLoading` and error depend on the action only. -/
theorem C23_last_completion_wins (s1 s2 : AuthState) :
    (∀ user : JsVal, authReducer s1 (.LOGIN_SUCCESS user) = authReducer s2 (.LOGIN_SUCCESS user))
    ∧ (∀ e : String, authReducer s1 (.LOGIN_FAILURE e) = authReducer s2 (.LOGIN_FAILURE e))
    ∧ (∀ user : JsVal,
        authReducer s1 (.LOAD_USER_SUCCESS user) = authReducer s2 (.LOAD_USER_SUCCESS user))
    ∧ (∀ e : String,
        authReducer s1 (.LOAD_USER_FAILURE e) = authReducer s2 (.LOAD_USER_FAILURE e))
    ∧ authReducer s1 .LOGOUT = authReducer s2 .LOGOUT :=
  ⟨fun _ => rfl, fun _ => rfl, fun _ => rfl, fun _ => rfl, rfl⟩

/-! ## C22: re-fetch after a mutation -/

theorem updateTaskPriority_world (api : ApiService) (net : Backend) (d : TaskManager)
    (w : World) (taskId newPriority : JsVal) :
    (TaskManager.updateTaskPriority api net d w taskId newPriority).2
      = (if taskId.convertible = true
          then api.send w ("/tasks/" ++ taskId.toStr)
            { method := some "PUT", body := some (.obj [("priority", newPriority)]) }
          else w) := by
  cases hc : taskId.convertible with
  | false => simp [TaskManager.updateTaskPriority, ApiService.updateTask, hc]
  | true =>
    simp only [TaskManager.updateTaskPriority, ApiService.updateTask, ApiService.put,
      request_eq_settle, withDefault_obj, hc, if_true]
    cases ApiService.settle (net (api.requestConfig w ("/tasks/" ++ taskId.toStr)
        { method := some "PUT", body := some (.obj [("priority", newPriority)]) })) with
    | error e => rfl
    | ok response =>
      dsimp only
      cases d.tasks.elements "map" with
      | error e => rfl
      | ok items =>
        dsimp only
        cases mapThrowing (fun task =>
            match task.readProp "_id" with
            | .error e => .error e
            | .ok i =>
              .ok (if i.strictEq taskId
                then .obj ((Props.assign [] task.ownProps).set "priority" newPriority)
                else task)) items <;> rfl

/-- C22, evaluation at the failing input: `updateTaskPriority('1', 'high')` succeeds against
the backend and edits the local list, and the only request handed to `fetch` is the `PUT` of
`/tasks/1`, with no `GET` of `/tasks` after it; the four sibling mutations on the same
dashboard each end with the `GET` of `/tasks`. -/
theorem C22_priority_update_without_refetch :
    (TaskManager.updateTaskPriority localApi acceptingBackend dashboardWithTask freshBrowser
        (.str "1") (.str "high")).2.wire
      = [(some "PUT", "http://localhost:5000/api/tasks/1")]
    ∧ (TaskManager.updateTaskPriority localApi acceptingBackend dashboardWithTask freshBrowser
        (.str "1") (.str "high")).1.tasks
      = .arr [.obj [("_id", .str "1"), ("title", .str "Write report"),
                    ("description", .str "Quarterly numbers"), ("status", .str "pending"),
                    ("priority", .str "high"), ("category", .str "work")]]
    ∧ (TaskManager.updateTaskPriority localApi acceptingBackend dashboardWithTask freshBrowser
        (.str "1") (.str "high")).1.error = none
    ∧ (TaskManager.toggleTaskStatus localApi acceptingBackend dashboardWithTask freshBrowser
        (.str "1")).2.wire
      = [(some "PATCH", "http://localhost:5000/api/tasks/1/status"),
         (some "GET", "http://localhost:5000/api/tasks")]
    ∧ (TaskManager.deleteTask localApi acceptingBackend dashboardWithTask freshBrowser
        (.str "1")).2.wire
      = [(some "DELETE", "http://localhost:5000/api/tasks/1"),
         (some "GET", "http://localhost:5000/api/tasks")]
    ∧ (TaskManager.saveEditTask localApi acceptingBackend
        { dashboardWithTask with editingTask := sampleTask } freshBrowser).2.wire
      = [(some "PUT", "http://localhost:5000/api/tasks/1"),
         (some "GET", "http://localhost:5000/api/tasks")]
    ∧ (TaskManager.addTask localApi acceptingBackend
        { dashboardWithTask with newTask := { NewTask.blank with title := "Plan sprint" } }
        freshBrowser).2.wire
      = [(some "POST", "http://localhost:5000/api/tasks"),
         (some "GET", "http://localhost:5000/api/tasks")] :=
  ⟨rfl, rfl, rfl, rfl, rfl, rfl, rfl⟩

/-! ## C25: toggling the status of a task -/

theorem findThrowing_none (p : JsVal → Except String Bool) (items : List JsVal)
    (h : ∀ t ∈ items, p t = .ok false) : findThrowing p items = .ok .undefined := by
  induction items with
  | nil => rfl
  | cons x rest ih =>
    have hx := h x (List.mem_cons_self _ _)
    have hrest := ih (fun t ht => h t (List.mem_cons_of_mem _ ht))
    simp [findThrowing, hx, hrest]

/-- For every list of tasks none of which has the property `_id`, and every identifier other
than `undefined`, `toggleTaskStatus` hands no request to `fetch` and only sets the error of the
dashboard. -/
theorem toggleTaskStatus_without_underscore_id (api : ApiService) (net : Backend)
    (d : TaskManager) (w : World) (taskId : JsVal) (items : List JsVal)
    (hd : d.tasks = .arr items)
    (hitems : ∀ t ∈ items, ∃ fields, t = .obj fields ∧ Props.get fields "_id" = none)
    (hid : JsVal.strictEq .undefined taskId = false) :
    TaskManager.toggleTaskStatus api net d w taskId
      = ({ d with error := some "Failed to update task status. Please try again." }, w) := by
  have hfind : findThrowing (fun t =>
      match t.readProp "_id" with
      | .error e => .error e
      | .ok i => .ok (i.strictEq taskId)) items = .ok .undefined := by
    apply findThrowing_none
    intro t ht
    obtain ⟨fields, rfl, hnone⟩ := hitems t ht
    simp [JsVal.readProp, hnone, hid]
  unfold TaskManager.toggleTaskStatus
  simp only [hd, JsVal.elements, hfind]
  rfl

/-- C25, evaluation at the failing input: for a task that has `id` and no `_id` the view
passes `id`, `toggleTaskStatus` looks the task up by `_id` and finds none, so reading the
status throws: no request is handed to `fetch`, the list is left as it was and the error of
the dashboard is set.  For the task with `_id` the handler sends the `PATCH` with the status
`completed` and edits the status and the `completed` field of that task. -/
theorem C25_toggle_misses_task_with_id :
    TaskManager.viewTaskId taskWithId = .ok (.str "7")
    ∧ (TaskManager.toggleTaskStatus localApi acceptingBackend
        { TaskManager.initial with tasks := .arr [taskWithId] } freshBrowser (.str "7")).2.sent
      = []
    ∧ (TaskManager.toggleTaskStatus localApi acceptingBackend
        { TaskManager.initial with tasks := .arr [taskWithId] } freshBrowser (.str "7")).1.error
      = some "Failed to update task status. Please try again."
    ∧ (TaskManager.toggleTaskStatus localApi acceptingBackend
        { TaskManager.initial with tasks := .arr [taskWithId] } freshBrowser (.str "7")).1.tasks
      = .arr [taskWithId]
    ∧ TaskManager.viewTaskId sampleTask = .ok (.str "1")
    ∧ ((TaskManager.toggleTaskStatus localApi acceptingBackend dashboardWithTask freshBrowser
        (.str "1")).2.sent.map (fun r => (r.method, r.url, r.body))).head?
      = some (some "PATCH", "http://localhost:5000/api/tasks/1/status",
          some (.obj [("status", .str "completed")]))
    ∧ (TaskManager.toggleTaskStatus localApi acceptingBackend dashboardWithTask freshBrowser
        (.str "1")).1.tasks
      = .arr [.obj [("_id", .str "1"), ("title", .str "Write report"),
                    ("description", .str "Quarterly numbers"), ("status", .str "completed"),
                    ("priority", .str "low"), ("category", .str "work"),
                    ("completed", .bool true)]] :=
  ⟨rfl, rfl, rfl, rfl, rfl, rfl, rfl⟩

/-- The sibling handler `deleteTask` compares `_id` in the same way: for the task that has `id`
and no `_id` the view passes `7`, the `DELETE` of `/tasks/7` is sent and accepted, and the
local list, which the handler filters by `_id`, still holds the task. -/
theorem deleteTask_keeps_task_with_id :
    (TaskManager.deleteTask localApi acceptingBackend
        { TaskManager.initial with tasks := .arr [taskWithId] } freshBrowser (.str "7")).2.wire
      = [(some "DELETE", "http://localhost:5000/api/tasks/7"),
         (some "GET", "http://localhost:5000/api/tasks")]
    ∧ (TaskManager.deleteTask localApi acceptingBackend
        { TaskManager.initial with tasks := .arr [taskWithId] } freshBrowser (.str "7")).1.tasks
      = .arr [taskWithId] :=
  ⟨rfl, rfl⟩

/-! ## C24: the filtered task list -/

theorem includes_empty (s : String) : includes s "" = true := by
  unfold includes
  cases hs : s.data with
  | nil => rfl
  | cons c rest => simp [List.tails, List.isPrefixOf]

theorem readProp_obj (fields : Props JsVal) (k : String) :
    (JsVal.obj fields).readProp k = .ok ((JsVal.obj fields).field k) := by
  simp [JsVal.readProp, JsVal.field]

theorem matchesTask_of_isTask (toLowerCase : String → String) (searchTerm : String)
    (selectedFilters : SelectedFilters) (task : JsVal) (h : isTask task = true) :
    TaskManager.matchesTask toLowerCase searchTerm selectedFilters task
      = .ok (passesFilters toLowerCase searchTerm selectedFilters task) := by
  cases task with
  | obj fields =>
    simp only [isTask, Bool.and_eq_true] at h
    obtain ⟨ht, hd⟩ := h
    cases htitle : (JsVal.obj fields).field "title" with
    | str a =>
      cases hdesc : (JsVal.obj fields).field "description" with
      | str b =>
        unfold TaskManager.matchesTask passesFilters
        simp only [readProp_obj, htitle, hdesc, JsVal.lowered]
        cases hi : includes (toLowerCase a) (toLowerCase searchTerm) <;> simp
      | undefined => rw [hdesc] at hd; cases hd
      | null => rw [hdesc] at hd; cases hd
      | bool x => rw [hdesc] at hd; cases hd
      | num x => rw [hdesc] at hd; cases hd
      | arr x => rw [hdesc] at hd; cases hd
      | obj x => rw [hdesc] at hd; cases hd
    | undefined => rw [htitle] at ht; cases ht
    | null => rw [htitle] at ht; cases ht
    | bool x => rw [htitle] at ht; cases ht
    | num x => rw [htitle] at ht; cases ht
    | arr x => rw [htitle] at ht; cases ht
    | obj x => rw [htitle] at ht; cases ht
  | undefined => cases h
  | null => cases h
  | bool x => cases h
  | num x => cases h
  | str x => cases h
  | arr x => cases h

theorem filterThrowing_total (p : JsVal → Except String Bool) (q : JsVal → Bool)
    (items : List JsVal) (h : ∀ t ∈ items, p t = .ok (q t)) :
    filterThrowing p items = .ok (items.filter q) := by
  induction items with
  | nil => rfl
  | cons x rest ih =>
    have hx := h x (List.mem_cons_self _ _)
    have hrest := ih (fun t ht => h t (List.mem_cons_of_mem _ ht))
    simp only [filterThrowing, hx, hrest, List.filter_cons]

/-- C24: for every list of tasks (objects whose title and description are strings), every
search term and every selection of filters, `filteredTasks` is the sublist of the tasks, in
their order, of exactly those tasks whose title or description contains the search term
without regard to case and whose status, priority and category each equal the selected filter
or the filter is `all`; hence with an empty search term and the three filters `all`,
`filteredTasks` is the list of tasks. -/
theorem C24_filteredTasks (toLowerCase : String → String) (searchTerm : String)
    (selectedFilters : SelectedFilters) (tasks : List JsVal)
    (hwf : ∀ t ∈ tasks, isTask t = true) :
    TaskManager.filteredTasks toLowerCase searchTerm selectedFilters tasks
      = .ok (tasks.filter (passesFilters toLowerCase searchTerm selectedFilters))
    ∧ (toLowerCase "" = "" → searchTerm = "" →
        selectedFilters = { status := "all", priority := "all", category := "all" } →
        TaskManager.filteredTasks toLowerCase searchTerm selectedFilters tasks = .ok tasks) := by
  have hmain : TaskManager.filteredTasks toLowerCase searchTerm selectedFilters tasks
      = .ok (tasks.filter (passesFilters toLowerCase searchTerm selectedFilters)) :=
    filterThrowing_total _ _ tasks
      (fun t ht => matchesTask_of_isTask toLowerCase searchTerm selectedFilters t (hwf t ht))
  refine ⟨hmain, ?_⟩
  intro hlow hterm hsel
  rw [hmain]
  subst hterm hsel
  have hall : ∀ t ∈ tasks,
      passesFilters toLowerCase ""
        { status := "all", priority := "all", category := "all" } t = true := by
    intro t ht
    have hw := hwf t ht
    cases t with
    | obj fields =>
      simp only [isTask, Bool.and_eq_true] at hw
      obtain ⟨h1, _⟩ := hw
      cases htitle : (JsVal.obj fields).field "title" with
      | str a => simp [passesFilters, htitle, hlow, includes_empty]
      | undefined => rw [htitle] at h1; cases h1
      | null => rw [htitle] at h1; cases h1
      | bool x => rw [htitle] at h1; cases h1
      | num x => rw [htitle] at h1; cases h1
      | arr x => rw [htitle] at h1; cases h1
      | obj x => rw [htitle] at h1; cases h1
    | undefined => cases hw
    | null => cases hw
    | bool x => cases hw
    | num x => cases hw
    | str x => cases hw
    | arr x => cases hw
  rw [List.filter_eq_self.mpr hall]

/-- C24, witness: the search term `REPORT` with the status filter `pending` keeps the task
`Write report` and drops the task `Book room`; the empty search with the filters `all` keeps
both. -/
theorem C24_filteredTasks_witness :
    TaskManager.filteredTasks asciiLower "REPORT"
        { status := "pending", priority := "all", category := "all" } [taskWithId, sampleTask]
      = .ok [sampleTask]
    ∧ TaskManager.filteredTasks asciiLower ""
        { status := "all", priority := "all", category := "all" } [taskWithId, sampleTask]
      = .ok [taskWithId, sampleTask] :=
  have hwf : ∀ t ∈ [taskWithId, sampleTask], isTask t = true := by
    intro t ht
    simp only [List.mem_cons, List.mem_singleton, List.not_mem_nil, or_false] at ht
    rcases ht with rfl | rfl <;> rfl
  ⟨(C24_filteredTasks asciiLower "REPORT"
      { status := "pending", priority := "all", category := "all" } [taskWithId, sampleTask]
      hwf).1,
   (C24_filteredTasks asciiLower ""
      { status := "all", priority := "all", category := "all" } [taskWithId, sampleTask]
      hwf).2 rfl rfl rfl⟩

end TaskFlow
